import Mathlib

/-!
# Verification of the effective-giggle MCP tool bridge

A shallow embedding of the tool-invocation bridge of the `effective-giggle`
repository, together with proofs and refutations of the specification's
claims about it.

Embedded components (file of origin in the repository):
* Python values and the standard-library `json.dumps(..., indent=2)` /
  `json.loads` pair, as used by `effective_giggle/mcp_server/server.py` and
  `client.py` for the wire payloads;
* the tool registry and `handle_call_tool` of
  `effective_giggle/mcp_server/server.py`;
* the tool catalogue of `effective_giggle/mcp_server/tools/notion_tools.py`;
* the context-aware tool filter of `pipeline_agents.py`;
* the connection lifecycle (`connect`, `disconnect`, `list_tools`,
  `_refresh_tools_cache`) of `effective_giggle/mcp_server/client.py`;
* the outbound-call timeout constants of the tool bodies.

Machine integers do not occur (Python integers are unbounded), so `Nat`/`Int`
are used directly.  Python exceptions are modelled with `Except String`,
where the `String` is the exception's message.
-/

namespace EffectiveGiggle

/-- A Python value, restricted to the shapes that flow through the bridge:
strings, integers, booleans, `None`, lists, and string-keyed dicts (the data
model of tool arguments and results; dict insertion order is significant in
Python and is kept as list order here). -/
inductive PyValue where
| str (s : String)
| int (i : Int)
| bool (b : Bool)
| noneV
| list (items : List PyValue)
| dict (entries : List (String × PyValue))
deriving BEq

/-- Association-list lookup, the model of a Python dict read (`d[k]` /
`k in d` / `d.get(k)`): first binding of the key wins, matching the
uniqueness of keys in a real dict. -/
def alistFind : List (String × PyValue) → String → Option PyValue
| [], _ => Option.none
| (k, v) :: rest, key => if k = key then some v else alistFind rest key

/-! ## The `json` standard-library model

`server.py` serializes dict results with `json.dumps(result, indent=2)` and
`client.py` decodes wire text with `json.loads`.  The printer below follows
the `indent=2` layout exactly (newline after every opening brace/bracket and
every item separator, two extra columns per nesting level, `": "` between key
and value).  One simplification against CPython: `dumps` here emits non-ASCII
characters literally (the `ensure_ascii=False` form) instead of as `\uXXXX`
sequences; `json.loads` accepts both encodings, so every property proved
below (the round-trip and the decode-failure fallback) is insensitive to
that choice.  Numbers are covered at integers — the only numeric results the
registered tool bodies produce; no tool result carries a float. -/

/-- One character of a JSON string body, escaped as CPython's encoder does
(`ESCAPE_DCT`): the two mandatory escapes, the five short control escapes,
and `\u00XX` for the remaining control characters. -/
def escapeSeq (c : Char) : List Char :=
  if c = '"' then ['\\', '"']
  else if c = '\\' then ['\\', '\\']
  else if c = '\n' then ['\\', 'n']
  else if c = '\r' then ['\\', 'r']
  else if c = '\t' then ['\\', 't']
  else if c.toNat = 8 then ['\\', 'b']
  else if c.toNat = 12 then ['\\', 'f']
  else if c.toNat < 32 then
    ['\\', 'u', '0', '0',
     (Nat.digitChar (c.toNat / 16)), (Nat.digitChar (c.toNat % 16))]
  else [c]

/-- A JSON string literal: quote, escaped body, quote. -/
def strQuoteL (s : String) : List Char :=
  '"' :: (s.data.flatMap escapeSeq ++ ['"'])

/-- Decimal digit characters of a natural number, most significant first
(the digits of Python's `str(n)`). -/
def natL (n : Nat) : List Char :=
  if _h : n < 10 then [Nat.digitChar n]
  else natL (n / 10) ++ [Nat.digitChar (n % 10)]
decreasing_by exact Nat.div_lt_self (by omega) (by omega)

/-- Python's `str` of an integer: optional minus sign, then digits. -/
def intL (i : Int) : List Char :=
  if i < 0 then '-' :: natL i.natAbs else natL i.natAbs

/-- `n` spaces: the indentation prefix of a line of `indent=2` output. -/
def padL (n : Nat) : List Char := List.replicate n ' '

mutual
/-- `json.dumps(v, indent=2)` at nesting level `lvl`, as a character list: a
nonempty container opens with a newline, renders its first element on an
indented line followed by the separated remainder, and closes on a fresh line
at the enclosing indentation. -/
def dumpsL (lvl : Nat) : PyValue → List Char
| .str s => strQuoteL s
| .int i => intL i
| .bool true => ['t', 'r', 'u', 'e']
| .bool false => ['f', 'a', 'l', 's', 'e']
| .noneV => ['n', 'u', 'l', 'l']
| .list [] => ['[', ']']
| .list (x :: xs) =>
    '[' :: '\n' :: (padL (2 * (lvl + 1)) ++ (dumpsL (lvl + 1) x
      ++ (itemsSepL (lvl + 1) xs ++ '\n' :: (padL (2 * lvl) ++ [']']))))
| .dict [] => ['{', '}']
| .dict ((k, v) :: kvs) =>
    '{' :: '\n' :: (padL (2 * (lvl + 1)) ++ (strQuoteL k
      ++ ':' :: ' ' :: (dumpsL (lvl + 1) v
      ++ (entriesSepL (lvl + 1) kvs ++ '\n' :: (padL (2 * lvl) ++ ['}'])))))
termination_by v => sizeOf v

/-- The second-onward items of a JSON array: `,`, newline, indentation, item. -/
def itemsSepL (lvl : Nat) : List PyValue → List Char
| [] => []
| y :: ys => ',' :: '\n' :: (padL (2 * lvl) ++ (dumpsL lvl y ++ itemsSepL lvl ys))
termination_by xs => sizeOf xs

/-- The second-onward members of a JSON object. -/
def entriesSepL (lvl : Nat) : List (String × PyValue) → List Char
| [] => []
| (k, v) :: kvs =>
    ',' :: '\n' :: (padL (2 * lvl) ++ (strQuoteL k
      ++ ':' :: ' ' :: (dumpsL lvl v ++ entriesSepL lvl kvs)))
termination_by kvs => sizeOf kvs
end

/-- `json.dumps(v, indent=2)` as called in `handle_call_tool`. -/
def jsonDumps (v : PyValue) : String := String.mk (dumpsL 0 v)

/-- The whitespace characters `json.loads` skips between tokens. -/
def wsChar (c : Char) : Bool := c = ' ' || c = '\t' || c = '\n' || c = '\r'

/-- Drop leading JSON whitespace. -/
def dropWs : List Char → List Char
| c :: r => if wsChar c then dropWs r else c :: r
| [] => []

/-- The value of a hexadecimal digit character, if it is one. -/
def hexNib (c : Char) : Option Nat :=
  if '0' ≤ c ∧ c ≤ '9' then some (c.toNat - '0'.toNat)
  else if 'a' ≤ c ∧ c ≤ 'f' then some (c.toNat - 'a'.toNat + 10)
  else if 'A' ≤ c ∧ c ≤ 'F' then some (c.toNat - 'A'.toNat + 10)
  else Option.none

/-- The single-character escape sequences `json.loads` accepts. -/
def unescCh (e : Char) : Option Char :=
  if e = 'n' then some '\n'
  else if e = 't' then some '\t'
  else if e = 'r' then some '\r'
  else if e = 'b' then some (Char.ofNat 8)
  else if e = 'f' then some (Char.ofNat 12)
  else if e = '"' ∨ e = '\\' ∨ e = '/' then some e
  else Option.none

/-- Scan a JSON string body after its opening quote; yields the decoded
characters and the input after the closing quote. -/
def scanStringBody : List Char → Option (List Char × List Char)
| [] => Option.none
| '"' :: r => some ([], r)
| '\\' :: 'u' :: a :: b :: c :: d :: r =>
    match hexNib a, hexNib b, hexNib c, hexNib d with
    | some w, some x, some y, some z =>
        (scanStringBody r).map
          (fun p => (Char.ofNat (((w * 16 + x) * 16 + y) * 16 + z) :: p.1, p.2))
    | _, _, _, _ => Option.none
| '\\' :: e :: r =>
    (unescCh e).bind (fun ch => (scanStringBody r).map (fun p => (ch :: p.1, p.2)))
| c :: r => (scanStringBody r).map (fun p => (c :: p.1, p.2))

/-- Split a leading run of decimal digits from the input. -/
def grabDigits : List Char → List Char × List Char
| [] => ([], [])
| c :: r =>
    if c.isDigit then
      let p := grabDigits r
      (c :: p.1, p.2)
    else ([], c :: r)

/-- The natural number a digit run denotes. -/
def digitsVal (ds : List Char) : Nat :=
  ds.foldl (fun acc c => acc * 10 + (c.toNat - '0'.toNat)) 0

/-- True when the input cannot extend a just-scanned number: empty, or headed
by a character that is neither a digit nor `.`/`e`/`E`.  (A head that would
extend the literal into a float makes the scan fail here: the registered tool
results carry no floats, so the model leaves floats unparsed.) -/
def numStop : List Char → Bool
| [] => true
| c :: _ => !(c.isDigit || c = '.' || c = 'e' || c = 'E')

/-- Scan a natural-number literal: a nonempty digit run with no float
continuation. -/
def scanNatNum (cs : List Char) : Option (Nat × List Char) :=
  match grabDigits cs with
  | ([], _) => Option.none
  | (ds, r) => if numStop r then some (digitsVal ds, r) else Option.none

mutual
/-- One `json.loads` value scan: skip whitespace, dispatch on the head
character, return the value and the unconsumed input.  `fuel` only forces
termination; every run below is invoked with more fuel than input characters,
which is always enough. -/
def scanValue : Nat → List Char → Option (PyValue × List Char)
| 0, _ => Option.none
| fuel + 1, cs =>
    match dropWs cs with
    | '{' :: r =>
        (match dropWs r with
         | c :: r2 =>
             if c = '}' then some (.dict [], r2)
             else (scanEntries fuel (c :: r2)).map (fun p => (PyValue.dict p.1, p.2))
         | [] => Option.none)
    | '[' :: r =>
        (match dropWs r with
         | c :: r2 =>
             if c = ']' then some (.list [], r2)
             else (scanItems fuel (c :: r2)).map (fun p => (PyValue.list p.1, p.2))
         | [] => Option.none)
    | '"' :: r =>
        (scanStringBody r).map (fun p => (PyValue.str (String.mk p.1), p.2))
    | 't' :: 'r' :: 'u' :: 'e' :: r => some (.bool true, r)
    | 'f' :: 'a' :: 'l' :: 's' :: 'e' :: r => some (.bool false, r)
    | 'n' :: 'u' :: 'l' :: 'l' :: r => some (.noneV, r)
    | '-' :: r => (scanNatNum r).map (fun p => (PyValue.int (-(p.1 : Int)), p.2))
    | c :: r =>
        if c.isDigit then
          (scanNatNum (c :: r)).map (fun p => (PyValue.int ((p.1 : Int)), p.2))
        else Option.none
    | [] => Option.none

/-- Scan the members of a nonempty JSON object (the head `}` of an empty one
is consumed by `scanValue`); stops after the closing `}`. -/
def scanEntries : Nat → List Char → Option (List (String × PyValue) × List Char)
| 0, _ => Option.none
| fuel + 1, cs =>
    match dropWs cs with
    | '"' :: r =>
        (match scanStringBody r with
         | Option.none => Option.none
         | some (kcs, r1) =>
             match dropWs r1 with
             | ':' :: r2 =>
                 (match scanValue fuel r2 with
                  | Option.none => Option.none
                  | some (v, r3) =>
                      match dropWs r3 with
                      | ',' :: r4 =>
                          (scanEntries fuel r4).map
                            (fun p => ((String.mk kcs, v) :: p.1, p.2))
                      | '}' :: r4 => some ([(String.mk kcs, v)], r4)
                      | _ => Option.none)
             | _ => Option.none)
    | _ => Option.none

/-- Scan the items of a nonempty JSON array; stops after the closing `]`. -/
def scanItems : Nat → List Char → Option (List PyValue × List Char)
| 0, _ => Option.none
| fuel + 1, cs =>
    match scanValue fuel cs with
    | Option.none => Option.none
    | some (v, r) =>
        match dropWs r with
        | ',' :: r2 => (scanItems fuel r2).map (fun p => (v :: p.1, p.2))
        | ']' :: r2 => some ([v], r2)
        | _ => Option.none
end

/-- `json.loads(s)`: scan one value and require only whitespace after it
(CPython raises `JSONDecodeError` on trailing garbage); `Option.none` is the
raised `JSONDecodeError`. -/
def pyLoads (s : String) : Option PyValue :=
  match scanValue (s.data.length + 1) s.data with
  | some (v, rest) => if (dropWs rest).isEmpty then some v else Option.none
  | Option.none => Option.none

/-! ## Inversion lemmas for the codec: numbers -/

/-- A decimal digit character carries its value and is a digit. -/
theorem digitChar_spec {d : Nat} (h : d < 10) :
    (Nat.digitChar d).toNat - '0'.toNat = d ∧ (Nat.digitChar d).isDigit = true := by
  interval_cases d <;> exact ⟨by decide, by decide⟩

/-- Every character `natL` emits is a digit. -/
theorem natL_all_digits (n : Nat) : ∀ c ∈ natL n, c.isDigit = true := by
  induction n using Nat.strongRecOn with
  | _ n ih =>
    rw [natL]
    split
    · intro c hc
      rw [List.mem_singleton] at hc
      subst hc
      exact (digitChar_spec (by omega)).2
    · intro c hc
      rcases List.mem_append.1 hc with hl | hr
      · exact ih (n / 10) (Nat.div_lt_self (by omega) (by omega)) c hl
      · rw [List.mem_singleton] at hr
        subst hr
        exact (digitChar_spec (Nat.mod_lt _ (by omega))).2

/-- `natL` never produces the empty list. -/
theorem natL_ne_nil (n : Nat) : natL n ≠ [] := by
  rw [natL]
  split <;> simp

/-- Appending one digit multiplies the accumulated value by ten. -/
theorem digitsVal_snoc (ds : List Char) (c : Char) :
    digitsVal (ds ++ [c]) = digitsVal ds * 10 + (c.toNat - '0'.toNat) := by
  simp [digitsVal, List.foldl_append]

/-- Reading back the digits of `n` recovers `n`. -/
theorem digitsVal_natL (n : Nat) : digitsVal (natL n) = n := by
  induction n using Nat.strongRecOn with
  | _ n ih =>
    rw [natL]
    split
    · rename_i h
      have hd := (digitChar_spec (d := n) (by omega)).1
      show digitsVal ([] ++ [Nat.digitChar n]) = n
      rw [digitsVal_snoc]
      simpa [digitsVal] using hd
    · rename_i h
      rw [digitsVal_snoc, ih (n / 10) (Nat.div_lt_self (by omega) (by omega)),
        (digitChar_spec (Nat.mod_lt n (by omega))).1]
      omega

/-- `grabDigits` takes nothing from an input that cannot extend a number. -/
theorem grabDigits_stop {cs : List Char} (h : numStop cs = true) :
    grabDigits cs = ([], cs) := by
  cases cs with
  | nil => rfl
  | cons c t =>
    simp only [numStop, Bool.not_eq_eq_eq_not, Bool.not_true, Bool.or_eq_false_iff,
      decide_eq_false_iff_not] at h
    simp [grabDigits, h.1.1.1]

/-- `grabDigits` consumes exactly a leading digit run. -/
theorem grabDigits_run {ds rest : List Char} (hds : ∀ c ∈ ds, c.isDigit = true)
    (hrest : grabDigits rest = ([], rest)) : grabDigits (ds ++ rest) = (ds, rest) := by
  induction ds with
  | nil =>
    rw [List.nil_append]
    exact hrest
  | cons d dtl ihd =>
    have hdig := hds d (List.mem_cons_self d dtl)
    have htail := ihd fun x hx => hds x (List.mem_cons_of_mem d hx)
    simp [grabDigits, hdig, htail]

/-- `scanNatNum` inverts `natL` whenever the remainder cannot extend the
number. -/
theorem scanNatNum_natL (n : Nat) {rest : List Char} (hr : numStop rest = true) :
    scanNatNum (natL n ++ rest) = some (n, rest) := by
  have hgrab : grabDigits (natL n ++ rest) = (natL n, rest) :=
    grabDigits_run (natL_all_digits n) (grabDigits_stop hr)
  obtain ⟨c, t, hct⟩ := List.exists_cons_of_ne_nil (natL_ne_nil n)
  rw [scanNatNum, hgrab, hct]
  simp only [hr, if_true]
  rw [← hct, digitsVal_natL]

/-! ## Inversion lemmas for the codec: strings -/

/-- `hexNib` reads back the digit characters `0`–`9`/`a`–`f`. -/
theorem hexNib_digitChar {d : Nat} (h : d < 16) :
    hexNib (Nat.digitChar d) = some d := by
  interval_cases d <;> decide

/-- A plain (unescaped) character scans as itself. -/
theorem scanStringBody_plain {c : Char} (hq : c ≠ '"') (hb : c ≠ '\\') (x : List Char) :
    scanStringBody (c :: x) = (scanStringBody x).map (fun p => (c :: p.1, p.2)) := by
  rw [scanStringBody.eq_def]
  split
  · rename_i heq
    exact (List.cons_ne_nil _ _ heq).elim
  · rename_i r heq
    exact absurd (List.cons.inj heq).1 hq
  · rename_i a b c1 d r heq
    exact absurd (List.cons.inj heq).1 hb
  · rename_i e r heq
    exact absurd (List.cons.inj heq).1 hb
  · rename_i c1 r heq
    obtain ⟨h1, h2⟩ := List.cons.inj heq
    subst h1
    subst h2
    rfl

/-- Scanning one escaped character prepends exactly that character. -/
theorem scanStringBody_escapeSeq (c : Char) (x : List Char) :
    scanStringBody (escapeSeq c ++ x)
      = (scanStringBody x).map (fun p => (c :: p.1, p.2)) := by
  rw [escapeSeq]
  split
  · rename_i h
    subst h
    rfl
  split
  · rename_i h
    subst h
    rfl
  split
  · rename_i h
    subst h
    rfl
  split
  · rename_i h
    subst h
    rfl
  split
  · rename_i h
    subst h
    rfl
  split
  · rename_i h
    have hc : c = Char.ofNat 8 := by rw [← Char.ofNat_toNat c, h]
    subst hc
    rfl
  split
  · rename_i h
    have hc : c = Char.ofNat 12 := by rw [← Char.ofNat_toNat c, h]
    subst hc
    rfl
  split
  · rename_i hq hb hn hr ht h8 h12 hlt
    have h16a : c.toNat / 16 < 16 := by omega
    have h16b : c.toNat % 16 < 16 := Nat.mod_lt _ (by omega)
    have h0 : hexNib '0' = some 0 := by decide
    simp only [List.cons_append, List.nil_append, scanStringBody, h0,
      hexNib_digitChar h16a, hexNib_digitChar h16b]
    have harith : ((0 * 16 + 0) * 16 + c.toNat / 16) * 16 + c.toNat % 16 = c.toNat := by
      omega
    simp only [harith, Char.ofNat_toNat]
    rfl
  · rename_i hq hb hn hr ht h8 h12 hge
    rw [List.singleton_append]
    exact scanStringBody_plain hq hb x

/-- Scanning an escaped run stops exactly at the closing quote. -/
theorem scanStringBody_flat (l : List Char) (x : List Char) :
    scanStringBody (l.flatMap escapeSeq ++ '"' :: x) = some (l, x) := by
  induction l with
  | nil => rfl
  | cons c t ih =>
    rw [List.flatMap_cons, List.append_assoc, scanStringBody_escapeSeq, ih]
    rfl

/-- The string-literal round-trip: scanning a rendered string recovers it. -/
theorem scanStringBody_strQuoteL (s : String) (x : List Char) :
    scanStringBody (s.data.flatMap escapeSeq ++ ('"' :: x)) = some (s.data, x) :=
  scanStringBody_flat s.data x

/-! ## Whitespace and head-character lemmas -/

/-- Indentation is invisible to `dropWs`. -/
theorem dropWs_padL (n : Nat) (x : List Char) : dropWs (padL n ++ x) = dropWs x := by
  induction n with
  | zero => rfl
  | succ m ih =>
    rw [padL, List.replicate_succ, List.cons_append, dropWs]
    simpa [wsChar] using ih

/-- A whitespace head is invisible to `dropWs`. -/
theorem dropWs_ws_cons {c : Char} (h : wsChar c = true) (x : List Char) :
    dropWs (c :: x) = dropWs x := by
  simp [dropWs, h]

/-- `dropWs` keeps a non-whitespace head. -/
theorem dropWs_keep {c : Char} (h : wsChar c = false) (x : List Char) :
    dropWs (c :: x) = c :: x := by
  simp [dropWs, h]

/-- `dropWs` keeps each concrete structural head the scanner dispatches on. -/
theorem dropWs_obrace (x : List Char) : dropWs ('{' :: x) = '{' :: x :=
  dropWs_keep (by decide) x

/-- `dropWs` keeps an opening bracket. -/
theorem dropWs_obrack (x : List Char) : dropWs ('[' :: x) = '[' :: x :=
  dropWs_keep (by decide) x

/-- `dropWs` keeps a quote. -/
theorem dropWs_quote (x : List Char) : dropWs ('"' :: x) = '"' :: x :=
  dropWs_keep (by decide) x

/-- `dropWs` keeps a colon. -/
theorem dropWs_colon (x : List Char) : dropWs (':' :: x) = ':' :: x :=
  dropWs_keep (by decide) x

/-- `dropWs` keeps a comma. -/
theorem dropWs_comma (x : List Char) : dropWs (',' :: x) = ',' :: x :=
  dropWs_keep (by decide) x

/-- `dropWs` keeps a closing brace. -/
theorem dropWs_cbrace (x : List Char) : dropWs ('}' :: x) = '}' :: x :=
  dropWs_keep (by decide) x

/-- `dropWs` keeps a closing bracket. -/
theorem dropWs_cbrack (x : List Char) : dropWs (']' :: x) = ']' :: x :=
  dropWs_keep (by decide) x

/-- `dropWs` skips a newline. -/
theorem dropWs_nl (x : List Char) : dropWs ('\n' :: x) = dropWs x :=
  dropWs_ws_cons (by decide) x

/-- `dropWs` skips a space. -/
theorem dropWs_sp (x : List Char) : dropWs (' ' :: x) = dropWs x :=
  dropWs_ws_cons (by decide) x

/-- A digit is not whitespace and is none of the scanner's structural
characters. -/
theorem digit_not_special {c : Char} (h : c.isDigit = true) :
    wsChar c = false ∧ c ≠ '{' ∧ c ≠ '[' ∧ c ≠ '"' ∧ c ≠ 't' ∧ c ≠ 'f'
      ∧ c ≠ 'n' ∧ c ≠ '-' ∧ c ≠ '}' ∧ c ≠ ']' ∧ c ≠ ',' ∧ c ≠ ':' := by
  refine ⟨?_, ?_, ?_, ?_, ?_, ?_, ?_, ?_, ?_, ?_, ?_, ?_⟩
  · simp only [wsChar, Bool.or_eq_false_iff, decide_eq_false_iff_not]
    refine ⟨⟨⟨?_, ?_⟩, ?_⟩, ?_⟩ <;> (rintro rfl; exact absurd h (by decide))
  all_goals (rintro rfl; exact absurd h (by decide))

/-- Every rendered value starts with a character that is neither whitespace
nor a closing delimiter nor a separator. -/
theorem dumpsL_head (lvl : Nat) (v : PyValue) :
    ∃ c t, dumpsL lvl v = c :: t ∧ wsChar c = false ∧ c ≠ '}' ∧ c ≠ ']' ∧ c ≠ ',' := by
  cases v with
  | str s => exact ⟨'"', _, by rw [dumpsL, strQuoteL], by decide, by decide, by decide, by decide⟩
  | bool b =>
    cases b with
    | true => exact ⟨'t', _, by rw [dumpsL], by decide, by decide, by decide, by decide⟩
    | false => exact ⟨'f', _, by rw [dumpsL], by decide, by decide, by decide, by decide⟩
  | noneV => exact ⟨'n', _, by rw [dumpsL], by decide, by decide, by decide, by decide⟩
  | int i =>
    by_cases hneg : i < 0
    · refine ⟨'-', natL i.natAbs, ?_, by decide, by decide, by decide, by decide⟩
      simp [dumpsL, intL, hneg]
    · obtain ⟨c, t, hct⟩ := List.exists_cons_of_ne_nil (natL_ne_nil i.natAbs)
      have hd : c.isDigit = true := natL_all_digits _ c (by rw [hct]; simp)
      obtain ⟨hws, _, _, _, _, _, _, _, hbr, hsq, hcm, _⟩ := digit_not_special hd
      refine ⟨c, t, ?_, hws, hbr, hsq, hcm⟩
      simp [dumpsL, intL, hneg, hct]
  | list xs =>
    cases xs with
    | nil => exact ⟨'[', _, by rw [dumpsL], by decide, by decide, by decide, by decide⟩
    | cons x xs =>
      refine ⟨'[', '\n' :: (padL (2 * (lvl + 1)) ++ (dumpsL (lvl + 1) x
        ++ (itemsSepL (lvl + 1) xs ++ '\n' :: (padL (2 * lvl) ++ [']'])))),
        ?_, by decide, by decide, by decide, by decide⟩
      rw [dumpsL]
  | dict kvs =>
    cases kvs with
    | nil => exact ⟨'{', _, by rw [dumpsL], by decide, by decide, by decide, by decide⟩
    | cons kv kvs =>
      obtain ⟨k, v⟩ := kv
      refine ⟨'{', '\n' :: (padL (2 * (lvl + 1)) ++ (strQuoteL k
        ++ ':' :: ' ' :: (dumpsL (lvl + 1) v
        ++ (entriesSepL (lvl + 1) kvs ++ '\n' :: (padL (2 * lvl) ++ ['}']))))),
        ?_, by decide, by decide, by decide, by decide⟩
      rw [dumpsL]

/-- `dropWs` does not touch rendered output (it never starts with
whitespace). -/
theorem dropWs_dumpsL (lvl : Nat) (v : PyValue) (x : List Char) :
    dropWs (dumpsL lvl v ++ x) = dumpsL lvl v ++ x := by
  obtain ⟨c, t, hct, hws, _, _, _⟩ := dumpsL_head lvl v
  rw [hct, List.cons_append, dropWs_keep hws]

/-- The value scanner only looks at its input through `dropWs`. -/
theorem scanValue_ws (fuel : Nat) {cs cs' : List Char} (h : dropWs cs = dropWs cs') :
    scanValue fuel cs = scanValue fuel cs' := by
  cases fuel with
  | zero => rfl
  | succ f => simp only [scanValue, h]

/-- The item scanner only looks at its input through `dropWs`. -/
theorem scanItems_ws (fuel : Nat) {cs cs' : List Char} (h : dropWs cs = dropWs cs') :
    scanItems fuel cs = scanItems fuel cs' := by
  cases fuel with
  | zero => rfl
  | succ f => simp only [scanItems, scanValue_ws f h]

/-- The member scanner only looks at its input through `dropWs`. -/
theorem scanEntries_ws (fuel : Nat) {cs cs' : List Char} (h : dropWs cs = dropWs cs') :
    scanEntries fuel cs = scanEntries fuel cs' := by
  cases fuel with
  | zero => rfl
  | succ f => simp only [scanEntries, h]

/-- A digit-headed input is scanned as a number. -/
theorem scanValue_digit_start {c : Char} (t : List Char) (fuel : Nat)
    (hd : c.isDigit = true) :
    scanValue (fuel + 1) (c :: t)
      = (scanNatNum (c :: t)).map (fun p => (PyValue.int ((p.1 : Int)), p.2)) := by
  obtain ⟨hws, hbo, hbk, hq, hT, hF, hN, hM, _, _, _, _⟩ := digit_not_special hd
  simp only [scanValue]
  rw [dropWs_keep hws]
  split
  · rename_i heq
    exact absurd (List.cons.inj heq).1 hbo
  · rename_i r heq
    exact absurd (List.cons.inj heq).1 hbk
  · rename_i r heq
    exact absurd (List.cons.inj heq).1 hq
  · rename_i r heq
    exact absurd (List.cons.inj heq).1 hT
  · rename_i r heq
    exact absurd (List.cons.inj heq).1 hF
  · rename_i r heq
    exact absurd (List.cons.inj heq).1 hN
  · rename_i r heq
    exact absurd (List.cons.inj heq).1 hM
  · rename_i c1 r heq
    obtain ⟨h1, h2⟩ := List.cons.inj heq
    subst h1
    subst h2
    simp [hd]
  · rename_i heq
    exact (List.cons_ne_nil _ _ heq).elim

/-- The scanner inverts the integer printer whenever the remainder cannot
extend the number. -/
theorem scanValue_intL (i : Int) (fuel : Nat) {rest : List Char}
    (hr : numStop rest = true) :
    scanValue (fuel + 1) (intL i ++ rest) = some (.int i, rest) := by
  by_cases hneg : i < 0
  · rw [intL, if_pos hneg, List.cons_append]
    have hws : wsChar '-' = false := by decide
    simp only [scanValue]
    rw [dropWs_keep hws]
    show (scanNatNum (natL i.natAbs ++ rest)).map
        (fun p => (PyValue.int (-(p.1 : Int)), p.2)) = some (PyValue.int i, rest)
    rw [scanNatNum_natL i.natAbs hr]
    show some (PyValue.int (-((i.natAbs : Int))), rest) = some (PyValue.int i, rest)
    rw [show -((i.natAbs : Int)) = i by omega]
  · rw [intL, if_neg hneg]
    obtain ⟨c, t, hct⟩ := List.exists_cons_of_ne_nil (natL_ne_nil i.natAbs)
    have hd : c.isDigit = true := natL_all_digits _ c (by rw [hct]; simp)
    rw [hct, List.cons_append, scanValue_digit_start _ fuel hd, ← List.cons_append,
      ← hct, scanNatNum_natL i.natAbs hr]
    show some (PyValue.int ((i.natAbs : Int)), rest) = some (PyValue.int i, rest)
    rw [show ((i.natAbs : Int)) = i by omega]

/-- Rebuilding a string from its character data gives the same string. -/
theorem strMk_data (s : String) : String.mk s.data = s := rfl

/-- A separator or closing line cannot extend a number. -/
theorem numStop_comma (x : List Char) : numStop (',' :: x) = true := rfl

/-- A newline cannot extend a number. -/
theorem numStop_newline (x : List Char) : numStop ('\n' :: x) = true := rfl

mutual
/-- Scanning a rendered value recovers it, for any sufficient fuel, any
nesting level, and any remainder that cannot extend a number literal. -/
theorem rt_value : ∀ (v : PyValue) (fuel lvl : Nat) (rest : List Char),
    (dumpsL lvl v).length < fuel → numStop rest = true →
    scanValue fuel (dumpsL lvl v ++ rest) = some (v, rest)
| .str s, fuel, lvl, rest, hf, _ => by
    cases fuel with
    | zero => omega
    | succ f =>
      rw [dumpsL]
      have hshape : strQuoteL s ++ rest
          = '"' :: (s.data.flatMap escapeSeq ++ ('"' :: rest)) := by
        simp [strQuoteL]
      rw [hshape]
      simp only [scanValue]
      rw [dropWs_keep (by decide)]
      show (scanStringBody (s.data.flatMap escapeSeq ++ ('"' :: rest))).map
          (fun p => (PyValue.str (String.mk p.1), p.2)) = some (.str s, rest)
      rw [scanStringBody_strQuoteL]
      rfl
| .int i, fuel, lvl, rest, hf, hr => by
    cases fuel with
    | zero => omega
    | succ f =>
      rw [dumpsL]
      exact scanValue_intL i f hr
| .bool true, fuel, lvl, rest, hf, _ => by
    cases fuel with
    | zero => omega
    | succ f =>
      rw [dumpsL]
      rfl
| .bool false, fuel, lvl, rest, hf, _ => by
    cases fuel with
    | zero => omega
    | succ f =>
      rw [dumpsL]
      rfl
| .noneV, fuel, lvl, rest, hf, _ => by
    cases fuel with
    | zero => omega
    | succ f =>
      rw [dumpsL]
      rfl
| .list [], fuel, lvl, rest, hf, _ => by
    cases fuel with
    | zero => omega
    | succ f =>
      rw [dumpsL]
      rfl
| .list (x :: xs), fuel, lvl, rest, hf, _ => by
    cases fuel with
    | zero => omega
    | succ f =>
      rw [dumpsL] at hf ⊢
      have hshape : ('[' :: '\n' :: (padL (2 * (lvl + 1)) ++ (dumpsL (lvl + 1) x
            ++ (itemsSepL (lvl + 1) xs ++ '\n' :: (padL (2 * lvl) ++ [']'])))))
            ++ rest
          = '[' :: '\n' :: (padL (2 * (lvl + 1)) ++ (dumpsL (lvl + 1) x
            ++ (itemsSepL (lvl + 1) xs ++ '\n' :: (padL (2 * lvl) ++ (']' :: rest))))) := by
        simp [List.append_assoc]
      rw [hshape]
      have hdrop : dropWs ('\n' :: (padL (2 * (lvl + 1)) ++ (dumpsL (lvl + 1) x
            ++ (itemsSepL (lvl + 1) xs ++ '\n' :: (padL (2 * lvl) ++ (']' :: rest))))))
          = dumpsL (lvl + 1) x
            ++ (itemsSepL (lvl + 1) xs ++ '\n' :: (padL (2 * lvl) ++ (']' :: rest))) := by
        rw [dropWs_ws_cons (by decide), dropWs_padL, dropWs_dumpsL]
      have hlen : (dumpsL (lvl + 1) x).length + (itemsSepL (lvl + 1) xs).length + 1
          < f := by
        simp only [List.length_cons, List.length_append, padL,
          List.length_replicate] at hf
        omega
      have hitems := rt_items x xs f (lvl + 1) (2 * lvl) rest hlen
      obtain ⟨c, t, hct, hws, _, hsq, _⟩ := dumpsL_head (lvl + 1) x
      rw [hct, List.cons_append] at hdrop
      simp only [scanValue, dropWs_obrack, hct, List.cons_append, hdrop]
      rw [if_neg hsq, ← List.cons_append, ← hct, hitems]
      rfl
| .dict [], fuel, lvl, rest, hf, _ => by
    cases fuel with
    | zero => omega
    | succ f =>
      rw [dumpsL]
      rfl
| .dict ((k, v) :: kvs), fuel, lvl, rest, hf, _ => by
    cases fuel with
    | zero => omega
    | succ f =>
      rw [dumpsL] at hf ⊢
      have hshape : ('{' :: '\n' :: (padL (2 * (lvl + 1)) ++ (strQuoteL k
            ++ ':' :: ' ' :: (dumpsL (lvl + 1) v
            ++ (entriesSepL (lvl + 1) kvs ++ '\n' :: (padL (2 * lvl) ++ ['}']))))))
            ++ rest
          = '{' :: '\n' :: (padL (2 * (lvl + 1)) ++ (strQuoteL k
            ++ ':' :: ' ' :: (dumpsL (lvl + 1) v
            ++ (entriesSepL (lvl + 1) kvs ++ '\n' :: (padL (2 * lvl) ++ ('}' :: rest)))))) := by
        simp [List.append_assoc]
      rw [hshape]
      have hsplit : strQuoteL k ++ (':' :: ' ' :: (dumpsL (lvl + 1) v
            ++ (entriesSepL (lvl + 1) kvs ++ '\n' :: (padL (2 * lvl) ++ ('}' :: rest)))))
          = '"' :: (k.data.flatMap escapeSeq ++ ('"' :: (':' :: ' ' :: (dumpsL (lvl + 1) v
            ++ (entriesSepL (lvl + 1) kvs ++ '\n' :: (padL (2 * lvl) ++ ('}' :: rest))))))) := by
        simp [strQuoteL, List.append_assoc]
      have hdrop : dropWs ('\n' :: (padL (2 * (lvl + 1)) ++ (strQuoteL k
            ++ ':' :: ' ' :: (dumpsL (lvl + 1) v
            ++ (entriesSepL (lvl + 1) kvs ++ '\n' :: (padL (2 * lvl) ++ ('}' :: rest)))))))
          = strQuoteL k ++ (':' :: ' ' :: (dumpsL (lvl + 1) v
            ++ (entriesSepL (lvl + 1) kvs ++ '\n' :: (padL (2 * lvl) ++ ('}' :: rest))))) := by
        rw [dropWs_ws_cons (by decide), dropWs_padL, hsplit, dropWs_keep (by decide)]
      have hlen : (strQuoteL k).length + (dumpsL (lvl + 1) v).length
          + (entriesSepL (lvl + 1) kvs).length + 1 < f := by
        simp only [List.length_cons, List.length_append, padL, strQuoteL,
          List.length_replicate] at hf ⊢
        omega
      have hentries := rt_entries k v kvs f (lvl + 1) (2 * lvl) rest hlen
      have hdrop2 : dropWs ('\n' :: (padL (2 * (lvl + 1)) ++ (strQuoteL k
            ++ ':' :: ' ' :: (dumpsL (lvl + 1) v
            ++ (entriesSepL (lvl + 1) kvs ++ '\n' :: (padL (2 * lvl) ++ ('}' :: rest)))))))
          = '"' :: (k.data.flatMap escapeSeq ++ ('"' :: (':' :: ' ' :: (dumpsL (lvl + 1) v
            ++ (entriesSepL (lvl + 1) kvs ++ '\n' :: (padL (2 * lvl) ++ ('}' :: rest))))))) := by
        rw [hdrop, hsplit]
      simp only [scanValue, dropWs_obrace, hdrop2]
      rw [if_neg (show ('"' : Char) ≠ '}' by decide), ← hsplit, hentries]
      rfl
termination_by v _ _ _ _ _ => sizeOf v

/-- Scanning the items of a rendered nonempty array recovers them. -/
theorem rt_items : ∀ (x : PyValue) (xs : List PyValue) (fuel lvl m : Nat)
    (rest : List Char),
    (dumpsL lvl x).length + (itemsSepL lvl xs).length + 1 < fuel →
    scanItems fuel (dumpsL lvl x
        ++ (itemsSepL lvl xs ++ '\n' :: (padL m ++ (']' :: rest))))
      = some (x :: xs, rest)
| x, [], fuel, lvl, m, rest, hf => by
    cases fuel with
    | zero => omega
    | succ f =>
      rw [itemsSepL, List.nil_append]
      have hval := rt_value x f lvl ('\n' :: (padL m ++ (']' :: rest)))
        (by rw [itemsSepL] at hf; simp at hf; omega) (numStop_newline _)
      have hd : dropWs ('\n' :: (padL m ++ (']' :: rest))) = ']' :: rest := by
        rw [dropWs_ws_cons (by decide), dropWs_padL, dropWs_keep (by decide)]
      simp only [scanItems, hval, hd]
| x, y :: ys, fuel, lvl, m, rest, hf => by
    cases fuel with
    | zero => omega
    | succ f =>
      rw [itemsSepL]
      simp only [List.cons_append, List.append_assoc]
      have hlen : (dumpsL lvl x).length < f ∧
          (dumpsL lvl y).length + (itemsSepL lvl ys).length + 1 < f := by
        rw [itemsSepL] at hf
        simp only [List.length_cons, List.length_append, padL,
          List.length_replicate] at hf
        omega
      have hval := rt_value x f lvl (',' :: '\n' :: (padL (2 * lvl)
        ++ (dumpsL lvl y ++ (itemsSepL lvl ys ++ '\n' :: (padL m ++ (']' :: rest))))))
        hlen.1 (numStop_comma _)
      have hd : dropWs (',' :: '\n' :: (padL (2 * lvl)
            ++ (dumpsL lvl y ++ (itemsSepL lvl ys ++ '\n' :: (padL m ++ (']' :: rest))))))
          = ',' :: '\n' :: (padL (2 * lvl)
            ++ (dumpsL lvl y ++ (itemsSepL lvl ys ++ '\n' :: (padL m ++ (']' :: rest))))) := by
        rw [dropWs_keep (by decide)]
      have hcongr : scanItems f ('\n' :: (padL (2 * lvl)
            ++ (dumpsL lvl y ++ (itemsSepL lvl ys ++ '\n' :: (padL m ++ (']' :: rest))))))
          = scanItems f (dumpsL lvl y
            ++ (itemsSepL lvl ys ++ '\n' :: (padL m ++ (']' :: rest)))) := by
        refine scanItems_ws f ?_
        rw [dropWs_ws_cons (by decide), dropWs_padL]
      have hih := rt_items y ys f lvl m rest hlen.2
      simp only [scanItems, hval, hd, hcongr, hih]
      rfl
termination_by x xs _ _ _ _ _ => sizeOf x + sizeOf xs

/-- Scanning the members of a rendered nonempty object recovers them. -/
theorem rt_entries : ∀ (k : String) (v : PyValue) (kvs : List (String × PyValue))
    (fuel lvl m : Nat) (rest : List Char),
    (strQuoteL k).length + (dumpsL lvl v).length + (entriesSepL lvl kvs).length + 1
      < fuel →
    scanEntries fuel (strQuoteL k ++ (':' :: ' ' :: (dumpsL lvl v
        ++ (entriesSepL lvl kvs ++ '\n' :: (padL m ++ ('}' :: rest))))))
      = some ((k, v) :: kvs, rest)
| k, v, [], fuel, lvl, m, rest, hf => by
    cases fuel with
    | zero => omega
    | succ f =>
      have hsplit : strQuoteL k ++ (':' :: ' ' :: (dumpsL lvl v
            ++ (entriesSepL lvl [] ++ '\n' :: (padL m ++ ('}' :: rest)))))
          = '"' :: (k.data.flatMap escapeSeq ++ ('"' :: (':' :: ' ' :: (dumpsL lvl v
            ++ (entriesSepL lvl [] ++ '\n' :: (padL m ++ ('}' :: rest))))))) := by
        simp [strQuoteL, List.append_assoc]
      have hdropq : dropWs (strQuoteL k ++ (':' :: ' ' :: (dumpsL lvl v
            ++ (entriesSepL lvl [] ++ '\n' :: (padL m ++ ('}' :: rest))))))
          = '"' :: (k.data.flatMap escapeSeq ++ ('"' :: (':' :: ' ' :: (dumpsL lvl v
            ++ (entriesSepL lvl [] ++ '\n' :: (padL m ++ ('}' :: rest))))))) := by
        rw [hsplit, dropWs_quote]
      have hkey := scanStringBody_strQuoteL k (':' :: ' ' :: (dumpsL lvl v
        ++ (entriesSepL lvl [] ++ '\n' :: (padL m ++ ('}' :: rest)))))
      have hdc : dropWs (':' :: ' ' :: (dumpsL lvl v
            ++ (entriesSepL lvl [] ++ '\n' :: (padL m ++ ('}' :: rest)))))
          = ':' :: ' ' :: (dumpsL lvl v
            ++ (entriesSepL lvl [] ++ '\n' :: (padL m ++ ('}' :: rest)))) := by
        rw [dropWs_keep (by decide)]
      have hvcongr : scanValue f (' ' :: (dumpsL lvl v
            ++ (entriesSepL lvl [] ++ '\n' :: (padL m ++ ('}' :: rest)))))
          = scanValue f (dumpsL lvl v
            ++ (entriesSepL lvl [] ++ '\n' :: (padL m ++ ('}' :: rest)))) := by
        refine scanValue_ws f ?_
        rw [dropWs_ws_cons (by decide)]
      have hval := rt_value v f lvl (entriesSepL lvl [] ++ '\n' :: (padL m
        ++ ('}' :: rest))) (by simp [strQuoteL] at hf; omega) (by rw [entriesSepL]; rfl)
      have hd2 : dropWs (entriesSepL lvl [] ++ '\n' :: (padL m ++ ('}' :: rest)))
          = '}' :: rest := by
        rw [entriesSepL, List.nil_append, dropWs_ws_cons (by decide), dropWs_padL,
          dropWs_keep (by decide)]
      simp only [scanEntries, hdropq, hkey, hdc, hvcongr, hval, hd2, strMk_data]
| k, v, (k2, v2) :: kvs2, fuel, lvl, m, rest, hf => by
    cases fuel with
    | zero => omega
    | succ f =>
      have hsplit : strQuoteL k ++ (':' :: ' ' :: (dumpsL lvl v
            ++ (entriesSepL lvl ((k2, v2) :: kvs2) ++ '\n' :: (padL m ++ ('}' :: rest)))))
          = '"' :: (k.data.flatMap escapeSeq ++ ('"' :: (':' :: ' ' :: (dumpsL lvl v
            ++ (entriesSepL lvl ((k2, v2) :: kvs2) ++ '\n' :: (padL m ++ ('}' :: rest))))))) := by
        simp [strQuoteL, List.append_assoc]
      have hdropq : dropWs (strQuoteL k ++ (':' :: ' ' :: (dumpsL lvl v
            ++ (entriesSepL lvl ((k2, v2) :: kvs2) ++ '\n' :: (padL m ++ ('}' :: rest))))))
          = '"' :: (k.data.flatMap escapeSeq ++ ('"' :: (':' :: ' ' :: (dumpsL lvl v
            ++ (entriesSepL lvl ((k2, v2) :: kvs2) ++ '\n' :: (padL m ++ ('}' :: rest))))))) := by
        rw [hsplit, dropWs_quote]
      have hkey := scanStringBody_strQuoteL k (':' :: ' ' :: (dumpsL lvl v
        ++ (entriesSepL lvl ((k2, v2) :: kvs2) ++ '\n' :: (padL m ++ ('}' :: rest)))))
      have hdc : dropWs (':' :: ' ' :: (dumpsL lvl v
            ++ (entriesSepL lvl ((k2, v2) :: kvs2) ++ '\n' :: (padL m ++ ('}' :: rest)))))
          = ':' :: ' ' :: (dumpsL lvl v
            ++ (entriesSepL lvl ((k2, v2) :: kvs2) ++ '\n' :: (padL m ++ ('}' :: rest)))) := by
        rw [dropWs_keep (by decide)]
      have hvcongr : scanValue f (' ' :: (dumpsL lvl v
            ++ (entriesSepL lvl ((k2, v2) :: kvs2) ++ '\n' :: (padL m ++ ('}' :: rest)))))
          = scanValue f (dumpsL lvl v
            ++ (entriesSepL lvl ((k2, v2) :: kvs2) ++ '\n' :: (padL m ++ ('}' :: rest)))) := by
        refine scanValue_ws f ?_
        rw [dropWs_ws_cons (by decide)]
      have hlen2 : (dumpsL lvl v).length < f ∧ (strQuoteL k2).length
          + (dumpsL lvl v2).length + (entriesSepL lvl kvs2).length + 1 < f := by
        rw [entriesSepL] at hf
        simp only [List.length_cons, List.length_append, padL, strQuoteL,
          List.length_replicate] at hf ⊢
        omega
      have hval := rt_value v f lvl (entriesSepL lvl ((k2, v2) :: kvs2)
        ++ '\n' :: (padL m ++ ('}' :: rest))) hlen2.1 (by rw [entriesSepL]; rfl)
      have hd3 : dropWs (entriesSepL lvl ((k2, v2) :: kvs2)
            ++ '\n' :: (padL m ++ ('}' :: rest)))
          = ',' :: ('\n' :: (padL (2 * lvl) ++ (strQuoteL k2
            ++ ':' :: ' ' :: (dumpsL lvl v2 ++ (entriesSepL lvl kvs2
            ++ '\n' :: (padL m ++ ('}' :: rest))))))) := by
        rw [entriesSepL]
        simp only [List.cons_append, List.append_assoc]
        rw [dropWs_comma]
      have hecongr : scanEntries f ('\n' :: (padL (2 * lvl) ++ (strQuoteL k2
            ++ ':' :: ' ' :: (dumpsL lvl v2 ++ (entriesSepL lvl kvs2
            ++ '\n' :: (padL m ++ ('}' :: rest)))))))
          = scanEntries f (strQuoteL k2 ++ (':' :: ' ' :: (dumpsL lvl v2
            ++ (entriesSepL lvl kvs2 ++ '\n' :: (padL m ++ ('}' :: rest)))))) := by
        refine scanEntries_ws f ?_
        rw [dropWs_nl, dropWs_padL]
      have hih := rt_entries k2 v2 kvs2 f lvl m rest hlen2.2
      simp only [scanEntries, hdropq, hkey, hdc, hvcongr, hval, hd3, hecongr, hih,
        strMk_data]
      rfl
termination_by k v kvs _ _ _ _ _ => 1 + sizeOf v + sizeOf kvs
end

/-- **Codec round-trip**: `json.loads` recovers every value `json.dumps`
serializes, whatever the nesting. -/
theorem pyLoads_jsonDumps (v : PyValue) : pyLoads (jsonDumps v) = some v := by
  rw [pyLoads, jsonDumps]
  have h := rt_value v ((dumpsL 0 v).length + 1) 0 [] (by omega) rfl
  rw [List.append_nil] at h
  show (match scanValue ((dumpsL 0 v).length + 1) (dumpsL 0 v) with
    | some (w, rest) => if (dropWs rest).isEmpty then some w else Option.none
    | Option.none => Option.none) = some v
  rw [h]
  rfl

/-! ## Python `str()` of a result value

`handle_call_tool` falls back to `str(result)` for results that are neither
dict nor str.  `repr` of a string is modelled for the common case of strings
needing no escaping (none of the claims inspects escaped reprs). -/

/-- An apostrophe, the quote character of Python's `repr` for strings. -/
def sq : String := String.mk [Char.ofNat 39]

mutual
/-- Python's `repr` of a value. -/
def pyRepr : PyValue → String
| .str s => sq ++ s ++ sq
| .int i => String.mk (intL i)
| .bool true => "True"
| .bool false => "False"
| .noneV => "None"
| .list xs => "[" ++ pyReprItems xs ++ "]"
| .dict kvs => String.mk ['{'] ++ pyReprEntries kvs ++ String.mk ['}']
termination_by v => sizeOf v

/-- The comma-separated element reprs of a list. -/
def pyReprItems : List PyValue → String
| [] => ""
| [x] => pyRepr x
| x :: xs => pyRepr x ++ ", " ++ pyReprItems xs
termination_by xs => sizeOf xs

/-- The comma-separated `key: value` reprs of a dict. -/
def pyReprEntries : List (String × PyValue) → String
| [] => ""
| [(k, v)] => sq ++ k ++ sq ++ ": " ++ pyRepr v
| (k, v) :: kvs => sq ++ k ++ sq ++ ": " ++ pyRepr v ++ ", " ++ pyReprEntries kvs
termination_by kvs => sizeOf kvs
end

/-- Python's `str()`: the identity on strings, `repr`-like elsewhere. -/
def pyStr : PyValue → String
| .str s => s
| v => pyRepr v

/-! ## The server: registry and `handle_call_tool`
(`effective_giggle/mcp_server/server.py`) -/

/-- One MCP text content item (`types.TextContent(type="text", text=...)`). -/
structure TextContent where
  type : String
  text : String
deriving BEq

/-- One entry of the module-level `_tools` dict: the keys every registered
tool provides (`function`, `description`, `schema`). -/
structure ToolImpl where
  description : String
  schema : PyValue
  function : List (String × PyValue) → Except String PyValue

/-- The tool registry `_tools`: a Python dict from tool name to
implementation, insertion-ordered. -/
def lookupTool : List (String × ToolImpl) → String → Option ToolImpl
| [], _ => Option.none
| (k, impl) :: rest, name => if k = name then some impl else lookupTool rest name

/-- One step of Python's `dict.update`: an existing key is overwritten in
place, a new key is appended. -/
def updateEntry (base : List (String × ToolImpl)) (kv : String × ToolImpl) :
    List (String × ToolImpl) :=
  if base.any (fun e => e.1 == kv.1) then
    base.map (fun e => if e.1 == kv.1 then kv else e)
  else base ++ [kv]

/-- Python's `_tools.update(new_tools)`, the whole registration step of
`_register_tools`. -/
def dictUpdate (base new : List (String × ToolImpl)) : List (String × ToolImpl) :=
  new.foldl updateEntry base

/-- The result formatting of `handle_call_tool`: dict results are
JSON-encoded with `indent=2`, strings pass through, anything else is
`str(result)`. -/
def formatResult : PyValue → String
| .dict es => jsonDumps (.dict es)
| .str s => s
| v => pyStr v

/-- What one `handle_call_tool` invocation does: how many times a tool body
ran (the spec's call counter), and the handler's result — `Except.error` is
the `ValueError` the handler raises, which the MCP framework turns into an
error response. -/
structure CallOutcome where
  bodyCalls : Nat
  outcome : Except String (List TextContent)

/-- `handle_call_tool(name, arguments)` of `server.py`: an unknown name
raises `ValueError` listing the available tools *without running any body*; a
known name runs the body once, wrapping any exception into
`"Tool execution failed: ..."` and formatting a success via `formatResult`. -/
def handle_call_tool (tools : List (String × ToolImpl)) (name : String)
    (arguments : List (String × PyValue)) : CallOutcome :=
  match lookupTool tools name with
  | Option.none =>
      { bodyCalls := 0,
        outcome := .error ("Tool " ++ sq ++ name ++ sq ++ " not found. Available tools: "
          ++ pyRepr (.list ((tools.map Prod.fst).map PyValue.str))) }
  | some impl =>
      { bodyCalls := 1,
        outcome :=
          match impl.function arguments with
          | .error e => .error ("Tool execution failed: " ++ e)
          | .ok r => .ok [{ type := "text", text := formatResult r }] }

/-- The wire-level call result the MCP framework produces: a raised handler
exception becomes an error-flagged text response, never a crash. -/
structure CallToolWireResult where
  isError : Bool
  content : List TextContent
deriving BEq

/-- A tool-call request: name plus argument mapping. -/
structure ToolCallRequest where
  name : String
  arguments : List (String × PyValue)

/-- One request, served at the wire level. -/
def serverWireResult (tools : List (String × ToolImpl)) (name : String)
    (arguments : List (String × PyValue)) : CallToolWireResult :=
  match (handle_call_tool tools name arguments).outcome with
  | .ok items => { isError := false, content := items }
  | .error msg => { isError := true, content := [{ type := "text", text := msg }] }

/-- A whole connection's worth of requests: the server is stateless across
calls (the registry is read-only), so each request is served independently. -/
def serverServe (tools : List (String × ToolImpl)) (reqs : List ToolCallRequest) :
    List CallToolWireResult :=
  reqs.map (fun r => serverWireResult tools r.name r.arguments)

/-- What the client's `call_tool` makes of a wire result (client.py lines
extracting `result.content[0].text`): JSON-decode the first text item, fall
back to the raw text on `JSONDecodeError`; an empty content list returns the
result object itself (`raw`).  The `isError` flag is never consulted. -/
inductive ClientResult where
| value (v : PyValue)
| raw
deriving BEq

/-- The decode stage of `EffectiveGiggleMCPClient.call_tool`. -/
def client_call_tool_decode (res : CallToolWireResult) : ClientResult :=
  match res.content with
  | [] => .raw
  | item :: _ =>
      .value (match pyLoads item.text with
        | some v => v
        | Option.none => .str item.text)

/-! ## The Notion tool bodies
(`effective_giggle/mcp_server/tools/notion_tools.py`)

The bodies perform outbound HTTP calls; a `NotionEnv` supplies what each
endpoint returns during one call (`Except.error` = the `requests` call
raised).  The outbound request payloads (query filter, page content blocks)
are written to the network only and inspected by no claim, so they are not
modelled; the response handling, error wrapping, and result shapes are. -/

/-- An HTTP response as the bodies consume it: status code, raw text, and
parsed `.json()` body. -/
structure HttpResponse where
  status : Nat
  text : String
  jsonBody : PyValue

/-- What the remote Notion endpoints do during one tool-body run. -/
structure NotionEnv where
  queryResp : Except String HttpResponse
  patchResp : Except String HttpResponse
  createResp : Except String HttpResponse

/-- `requests.Response.raise_for_status()`: raises `HTTPError` at 4xx/5xx. -/
def raiseForStatus (r : HttpResponse) : Except String Unit :=
  if 400 ≤ r.status then .error ("HTTPError: " ++ String.mk (natL r.status))
  else .ok ()

/-- Python `value[key]`: `KeyError` on a missing key, `TypeError` on a
non-dict. -/
def pyGetItem (v : PyValue) (k : String) : Except String PyValue :=
  match v with
  | .dict d =>
      match alistFind d k with
      | some x => .ok x
      | Option.none => .error ("KeyError: " ++ sq ++ k ++ sq)
  | _ => .error "TypeError: object is not subscriptable"

/-- Python `d[k] = v` on a dict's entries: overwrite in place or append. -/
def dictSetKV (d : List (String × PyValue)) (k : String) (v : PyValue) :
    List (String × PyValue) :=
  if d.any (fun e => e.1 == k) then d.map (fun e => if e.1 == k then (k, v) else e)
  else d ++ [(k, v)]

/-- `"".join(rt.get("plain_text", "") for rt in ...)` over one rich-text
list: each element must be a dict and each `plain_text` a string, as in the
Notion payloads this consumes. -/
def joinPlainList : List PyValue → Except String (List String)
| [] => .ok []
| .dict rt :: rest =>
    match (alistFind rt "plain_text").getD (.str "") with
    | .str s => (joinPlainList rest).map (fun ss => s :: ss)
    | _ => .error "TypeError: sequence item: expected str instance"
| _ :: _ => .error "AttributeError: no attribute get"

/-- The rich-text/title join of `_normalize_property_value`. -/
def joinPlain : PyValue → Except String PyValue
| .list rts => (joinPlainList rts).map (fun ss => .str (String.join ss))
| _ => .error "TypeError: not iterable"

mutual
/-- `_normalize_property_value`: `None` becomes `""`; a list joins its
normalized elements with `", "`; a dict yields its `name` value verbatim, or
joins `rich_text`/`title` plain texts; anything else is `str(value)`. -/
def normalizeProp : PyValue → Except String PyValue
| .noneV => .ok (.str "")
| .list vs => (normalizeList vs).map (fun ss => .str (String.intercalate ", " ss))
| .dict d =>
    match alistFind d "name" with
    | some nv => .ok nv
    | Option.none =>
        if alistFind d "type" == some (.str "rich_text") then
          joinPlain ((alistFind d "rich_text").getD (.list []))
        else if alistFind d "type" == some (.str "title") then
          joinPlain ((alistFind d "title").getD (.list []))
        else .ok (.str (pyStr (.dict d)))
| v => .ok (.str (pyStr v))
termination_by v => sizeOf v

/-- The element-wise normalization feeding the `", ".join(...)`: each
normalized element must be a string or the join raises. -/
def normalizeList : List PyValue → Except String (List String)
| [] => .ok []
| v :: vs =>
    match normalizeProp v with
    | .error e => .error e
    | .ok (.str s) => (normalizeList vs).map (fun ss => s :: ss)
    | .ok _ => .error "TypeError: sequence item: expected str instance"
termination_by vs => sizeOf vs
end

/-- The topic columns `_extract_topic_properties` extracts. -/
def desiredProperties : List String :=
  ["Topic", "Angle", "Stance", "Audience", "Must Hit", "Red lines",
   "Geo Focus", "Time Window"]

/-- The per-column loop of `_extract_topic_properties`. -/
def extractProps (d : List (String × PyValue)) : List String →
    Except String (List (String × PyValue))
| [] => .ok []
| k :: ks =>
    match normalizeProp ((alistFind d k).getD .noneV) with
    | .error e => .error e
    | .ok v => (extractProps d ks).map (fun rest => (k, v) :: rest)

/-- `_extract_topic_properties(raw_properties)`. -/
def extractTopicProps (raw : PyValue) : Except String (List (String × PyValue)) :=
  match raw with
  | .dict d => extractProps d desiredProperties
  | _ => .error "AttributeError: no attribute get"

/-- The `try` block of `query_topics_by_status`: request, status check,
`results` extraction, per-page property extraction with the page id added. -/
def queryCore (env : NotionEnv) : Except String (List PyValue) := do
  let resp ← env.queryResp
  let _ ← raiseForStatus resp
  match resp.jsonBody with
  | .dict d =>
      match (alistFind d "results").getD (.list []) with
      | .list pages =>
          pages.mapM (fun page => do
            let props ← pyGetItem page "properties"
            let ext ← extractTopicProps props
            let pid ← pyGetItem page "id"
            pure (PyValue.dict (dictSetKV ext "page_id" pid)))
      | _ => .error "TypeError: not iterable"
  | _ => .error "AttributeError: no attribute get"

/-- `query_topics_by_status(status, limit)`.  `status` and `limit` feed only
the outbound query payload (`page_size = min(limit, 100)`), which is not
modelled; every failure of the `try` block is re-raised as
`"Topic query failed: ..."`. -/
def query_topics_by_status (env : NotionEnv) (status limit : PyValue) :
    Except String PyValue :=
  match queryCore env with
  | .error exc => .error ("Topic query failed: " ++ exc)
  | .ok topics => .ok (.list topics)

/-- Python truthiness, as tested by `if not page_id`. -/
def pyFalsy : PyValue → Bool
| .noneV => true
| .str s => s.isEmpty
| .int i => i == 0
| .bool b => !b
| .list xs => xs.isEmpty
| .dict d => d.isEmpty

/-- `select_topic_from_backlog()`: queries the backlog (errors propagate),
returns `{}` when it is empty, otherwise promotes the first topic — the
status `PATCH` may fail, which is logged and ignored — and returns the topic
data dictionary. -/
def select_topic_from_backlog (env : NotionEnv) : Except String PyValue := do
  let topicsV ← query_topics_by_status env (.str "Backlog") (.int 100)
  match topicsV with
  | .list [] => .ok (.dict [])
  | .list (selected :: _) =>
      (match selected with
       | .dict sd =>
           let pid := (alistFind sd "page_id").getD .noneV
           if pyFalsy pid then .error "Selected topic missing page_id"
           else
             match pid with
             | .str pidStr =>
                 .ok (.dict [("page_id", .str pidStr),
                   ("notion_url", .str ("https://www.notion.so/"
                     ++ String.mk (pidStr.data.filter (fun c => !(c == '-'))))),
                   ("Topic", (alistFind sd "Topic").getD (.str "")),
                   ("Angle", (alistFind sd "Angle").getD (.str "")),
                   ("Stance", (alistFind sd "Stance").getD (.str "")),
                   ("Audience", (alistFind sd "Audience").getD (.str "")),
                   ("Geo Focus", (alistFind sd "Geo Focus").getD (.str "")),
                   ("Time Window", (alistFind sd "Time Window").getD (.str ""))])
             | _ => .error "AttributeError: no attribute replace"
       | _ => .error "AttributeError: no attribute get")
  | _ => .error "TypeError: not a list"

/-- `update_topic_status(topic_id, new_status)`: a failing `PATCH` (raise or
4xx/5xx) is re-raised as `"Status update failed: ..."`, success returns the
confirmation dictionary. -/
def update_topic_status (env : NotionEnv) (topic_id new_status : PyValue) :
    Except String PyValue :=
  match (do
      let r ← env.patchResp
      let _ ← raiseForStatus r
      pure r : Except String HttpResponse) with
  | .error exc => .error ("Status update failed: " ++ exc)
  | .ok _ =>
      .ok (.dict [("success", .bool true), ("topic_id", topic_id),
        ("new_status", new_status),
        ("message", .str ("Topic status updated to " ++ pyStr new_status))])

/-- `create_research_page(topic_id, research_data)`: the report JSON must
parse (`"Invalid JSON format: ..."` otherwise); the parsed report only shapes
the outbound page content, which is not modelled; a raising `POST` becomes
`"Failed to create research page: ..."`, a non-200 status raises
`"Notion API error: ..."`, and success returns the created page's id and
url. -/
def create_research_page (env : NotionEnv) (topic_id research_data : PyValue) :
    Except String PyValue :=
  match research_data with
  | .str s =>
      (match pyLoads s with
       | Option.none => .error "Invalid JSON format: Expecting value"
       | some _ =>
           match env.createResp with
           | .error e => .error ("Failed to create research page: " ++ e)
           | .ok resp =>
               if resp.status ≠ 200 then
                 .error ("Notion API error: " ++ String.mk (natL resp.status)
                   ++ " - " ++ resp.text)
               else do
                 let pid ← pyGetItem resp.jsonBody "id"
                 let url ← pyGetItem resp.jsonBody "url"
                 .ok (.dict [("success", .bool true), ("page_id", pid),
                   ("url", url),
                   ("message", .str "Research page created successfully")]))
  | _ => .error "TypeError: the JSON object must be str, bytes or bytearray"

/-- A missing required keyword argument raises `TypeError` before the body
proper runs (Python's `**arguments` unpacking). -/
def requireArg (args : List (String × PyValue)) (k : String) :
    Except String PyValue :=
  match alistFind args k with
  | some v => .ok v
  | Option.none => .error ("TypeError: missing required argument: " ++ sq ++ k ++ sq)

/-- `register_notion_tools()`: the dictionary literal of the four Notion
tools, with each tool's description and JSON input schema transcribed from
the source, and each function binding the body over the Notion endpoints. -/
def register_notion_tools (env : NotionEnv) : List (String × ToolImpl) :=
  [("select_topic_from_backlog",
    { description := "Select a topic from the backlog and promote it to candidate status",
      schema := .dict [("type", .str "object"), ("properties", .dict []),
        ("required", .list []),
        ("description", .str "No parameters required. Selects the first available backlog topic.")],
      function := fun args =>
        if args.isEmpty then select_topic_from_backlog env
        else .error "TypeError: unexpected keyword argument" }),
   ("update_topic_status",
    { description := "Update the status of a specific topic in the database",
      schema := .dict [("type", .str "object"),
        ("properties", .dict
          [("topic_id", .dict [("type", .str "string"),
             ("description", .str "The Notion page ID of the topic to update")]),
           ("new_status", .dict [("type", .str "string"),
             ("description", .str "The new status value (e.g., Research, Complete, etc.)"),
             ("enum", .list [.str "Backlog", .str "Candidate", .str "Research",
               .str "Writing", .str "Complete", .str "Archived"])])]),
        ("required", .list [.str "topic_id", .str "new_status"])],
      function := fun args => do
        let tid ← requireArg args "topic_id"
        let ns ← requireArg args "new_status"
        update_topic_status env tid ns }),
   ("query_topics_by_status",
    { description := "Query topics from the database filtered by their current status",
      schema := .dict [("type", .str "object"),
        ("properties", .dict
          [("status", .dict [("type", .str "string"),
             ("description", .str "The status to filter by"),
             ("enum", .list [.str "Backlog", .str "Candidate", .str "Research",
               .str "Writing", .str "Complete", .str "Archived"])]),
           ("limit", .dict [("type", .str "integer"),
             ("description", .str "Maximum number of topics to return (default: 10)"),
             ("minimum", .int 1), ("maximum", .int 100), ("default", .int 10)])]),
        ("required", .list [.str "status"])],
      function := fun args => do
        let st ← requireArg args "status"
        query_topics_by_status env st ((alistFind args "limit").getD (.int 10)) }),
   ("create_research_page",
    { description := "Create a child page under a topic with research results",
      schema := .dict [("type", .str "object"),
        ("properties", .dict
          [("topic_id", .dict [("type", .str "string"),
             ("description", .str "The Notion page ID of the parent topic")]),
           ("research_data", .dict [("type", .str "string"),
             ("description", .str "JSON string containing the research report with digest, citations, insights, etc.")])]),
        ("required", .list [.str "topic_id", .str "research_data"])],
      function := fun args => do
        let tid ← requireArg args "topic_id"
        let rd ← requireArg args "research_data"
        create_research_page env tid rd })]

/-- `_register_tools()` of `server.py`: starts from the empty `_tools` dict
and merges the Notion tools via `dict.update` — the only registration the
server performs (the search-tool module's `register_search_tools` is never
called there). -/
def registerTools (env : NotionEnv) : List (String × ToolImpl) :=
  dictUpdate [] (register_notion_tools env)

/-! ## The context-aware tool filter (`pipeline_agents.py`) -/

/-- The SDK's `ToolFilterContext`, as far as the filter reads it: the calling
agent's name (read into `agent_name` and then unused by the decision). -/
structure ToolFilterContext where
  agentName : String

/-- A tool as the filter sees it: only its name is consulted. -/
structure ToolRef where
  name : String

/-- `create_context_aware_tool_filter(agent_type)`: the returned predicate
allows a fixed name set per known agent type and denies everything for any
other agent type. -/
def create_context_aware_tool_filter (agent_type : String) :
    ToolFilterContext → ToolRef → Bool :=
  fun _context tool =>
    if agent_type = "topic_selector" then
      ["select_topic_from_backlog", "update_topic_status",
       "query_topics_by_status"].contains tool.name
    else if agent_type = "researcher" then
      ["web_search", "search_news", "extract_content", "create_research_page",
       "update_topic_status"].contains tool.name
    else false

/-! ## The client lifecycle (`effective_giggle/mcp_server/client.py`)

Sessions and stdio contexts are abstract handles; their `closeRaises` flag
says whether the handle's `__aexit__` raises when awaited, which is the only
aspect of them `disconnect` can observe. -/

/-- A `ClientSession` handle. -/
structure MCPSession where
  sid : Nat
  closeRaises : Bool
deriving BEq

/-- A `stdio_client` context-manager handle. -/
structure StdioContext where
  cid : Nat
  closeRaises : Bool
deriving BEq

/-- One cached tool entry (`{"name", "description", "inputSchema"}`). -/
structure ToolEntry where
  name : String
  description : String
  inputSchema : PyValue
deriving BEq

/-- The client's mutable attributes. -/
structure ClientState where
  session : Option MCPSession
  stdioContext : Option StdioContext
  readStream : Option Nat
  writeStream : Option Nat
  toolsCache : Option (List ToolEntry)
deriving BEq

/-- `__init__`: everything unset. -/
def freshClient : ClientState :=
  { session := Option.none, stdioContext := Option.none, readStream := Option.none,
    writeStream := Option.none, toolsCache := Option.none }

/-- `is_connected()`. -/
def is_connected (st : ClientState) : Bool := st.session.isSome

/-- `disconnect()`: the session close, the stdio close, and the attribute
clearing run inside one `try`; an exception from either close is caught and
logged, which also skips every statement after the raise — the remaining
attributes keep their values.  The function itself never raises. -/
def disconnect (st : ClientState) : ClientState :=
  match st.session with
  | some s =>
      if s.closeRaises then st
      else
        let st1 : ClientState := { st with session := Option.none }
        match st1.stdioContext with
        | some c =>
            if c.closeRaises then st1
            else { st1 with stdioContext := Option.none, readStream := Option.none, writeStream := Option.none, toolsCache := Option.none }
        | Option.none =>
            { st1 with readStream := Option.none, writeStream := Option.none, toolsCache := Option.none }
  | Option.none =>
      match st.stdioContext with
      | some c =>
          if c.closeRaises then st
          else { st with stdioContext := Option.none, readStream := Option.none, writeStream := Option.none, toolsCache := Option.none }
      | Option.none =>
          { st with readStream := Option.none, writeStream := Option.none, toolsCache := Option.none }

/-- `_refresh_tools_cache()`: no session, no request; otherwise one
`list_tools` request is issued and the cache is set to the converted entries
on success and to `[]` when the request (or conversion) raises — the
exception is caught and logged, never re-raised.  The `Nat` counts requests
issued to the server. -/
def refreshToolsCache (st : ClientState)
    (listResp : Except String (List ToolEntry)) : ClientState × Nat :=
  if st.session.isNone then (st, 0)
  else
    match listResp with
    | .ok ts => ({ st with toolsCache := some ts }, 1)
    | .error _ => ({ st with toolsCache := some [] }, 1)

/-- `list_tools(refresh_cache)`: raises when disconnected; refreshes when the
cache is absent or a refresh is forced; returns `self._tools_cache or []`.
`listResp` is the server's answer should a request be issued; the `Nat`
counts requests issued. -/
def list_tools (st : ClientState) (refresh_cache : Bool)
    (listResp : Except String (List ToolEntry)) :
    Except String (List ToolEntry × ClientState × Nat) :=
  if st.session.isNone then
    .error "Not connected to MCP server. Call connect() first."
  else
    let p := if st.toolsCache.isNone || refresh_cache
      then refreshToolsCache st listResp else (st, 0)
    .ok (p.1.toolsCache.getD [], p.1, p.2)

/-- What the environment does during one `connect()` attempt: the created
handles, and the outcome of each awaited step (stdio enter returning the
stream pair, session enter, `initialize`, and the tool-list request of the
final cache refresh). -/
structure ConnectEnv where
  stdioCtx : StdioContext
  sessionObj : MCPSession
  stdioEnter : Except String (Nat × Nat)
  sessionEnter : Except String Unit
  initResult : Except String Unit
  listResp : Except String (List ToolEntry)

/-- `connect()`: an already-connected client returns at once (no spawn, no
state change); otherwise the stdio context is stored before it is entered and
the session object before it is awaited, any failure runs `disconnect()` and
re-raises as `"MCP connection failed: ..."`, and success ends with a cache
refresh.  The `Nat` counts server-process spawn attempts. -/
def connect (st : ClientState) (env : ConnectEnv) :
    Except String Unit × ClientState × Nat :=
  if st.session.isSome then (.ok (), st, 0)
  else
    let st1 : ClientState := { st with stdioContext := some env.stdioCtx }
    match env.stdioEnter with
    | .error e => (.error ("MCP connection failed: " ++ e), disconnect st1, 1)
    | .ok (r, w) =>
        let st2 : ClientState := { st1 with readStream := some r, writeStream := some w }
        let st3 : ClientState := { st2 with session := some env.sessionObj }
        match env.sessionEnter with
        | .error e => (.error ("MCP connection failed: " ++ e), disconnect st3, 1)
        | .ok _ =>
            match env.initResult with
            | .error e => (.error ("MCP connection failed: " ++ e), disconnect st3, 1)
            | .ok _ =>
                let p := refreshToolsCache st3 env.listResp
                (.ok (), p.1, 1)

/-! ## Outbound-call timeout constants

Each entry records one remote-dependency call site inside a tool body and the
explicit timeout (in seconds) the source passes at that site. -/

/-- One outbound call site and its timeout argument. -/
structure OutboundCall where
  site : String
  timeoutSeconds : Nat

/-- The call sites of the tool modules registered with (or written for) the
MCP server: the four Notion bodies and the four search bodies. -/
def mcpServerToolOutboundCalls : List OutboundCall :=
  [{ site := "mcp_server/tools/notion_tools.py: select_topic_from_backlog requests.patch",
     timeoutSeconds := 4 },
   { site := "mcp_server/tools/notion_tools.py: update_topic_status requests.patch",
     timeoutSeconds := 4 },
   { site := "mcp_server/tools/notion_tools.py: query_topics_by_status requests.post",
     timeoutSeconds := 4 },
   { site := "mcp_server/tools/notion_tools.py: create_research_page requests.post",
     timeoutSeconds := 4 },
   { site := "mcp_server/tools/search_tools.py: web_search asyncio.wait_for",
     timeoutSeconds := 4 },
   { site := "mcp_server/tools/search_tools.py: search_news asyncio.wait_for",
     timeoutSeconds := 4 },
   { site := "mcp_server/tools/search_tools.py: find_similar asyncio.wait_for",
     timeoutSeconds := 4 },
   { site := "mcp_server/tools/search_tools.py: extract_content aiohttp.ClientTimeout",
     timeoutSeconds := 4 }]

/-- The call sites of the legacy agents-SDK function tool in
`effective_giggle/tools/notion_db.py`, still registered as a tool in
`agents/topic_selector/agent.py`. -/
def legacyFunctionToolOutboundCalls : List OutboundCall :=
  [{ site := "tools/notion_db.py: select_topic_from_backlog requests.post",
     timeoutSeconds := 30 },
   { site := "tools/notion_db.py: select_topic_from_backlog requests.patch",
     timeoutSeconds := 30 }]

/-- Every outbound call made from a tool body registered anywhere in the
repository. -/
def allRegisteredToolOutboundCalls : List OutboundCall :=
  mcpServerToolOutboundCalls ++ legacyFunctionToolOutboundCalls

/-- Whether `pre` is a prefix of the second list. -/
def charPrefix (needle hay : List Char) : Bool :=
  match needle with
  | [] => true
  | n :: ns =>
      match hay with
      | [] => false
      | h :: hs => if n = h then charPrefix ns hs else false

/-- Whether `needle` occurs contiguously inside the list. -/
def charSeqIn (needle : List Char) : List Char → Bool
| [] => needle.isEmpty
| c :: rest => charPrefix needle (c :: rest) || charSeqIn needle rest

/-- Whether `hay` contains `needle` as a substring ("the message carries the
tool name"). -/
def strContains (hay needle : String) : Bool := charSeqIn needle.data hay.data

/-! ## Concrete fixtures used by witnesses and counterexamples -/

/-- A Notion environment where every endpoint answers successfully. -/
def demoEnv : NotionEnv :=
  { queryResp := .ok { status := 200, text := "", jsonBody := .dict [("results", .list [])] },
    patchResp := .ok { status := 200, text := "", jsonBody := .dict [] },
    createResp := .ok { status := 200, text := "", jsonBody := .dict [("id", .str "p1"), ("url", .str "https://notion.so/p1")] } }

/-- Like `demoEnv`, but the `PATCH` endpoint raises `boom`. -/
def demoEnvPatchRaises : NotionEnv :=
  { demoEnv with patchResp := .error "boom" }

/-- The registered `update_topic_status` implementation over the raising
environment (entry 1 of `register_notion_tools`). -/
def demoUpdImpl : ToolImpl :=
  ((register_notion_tools demoEnvPatchRaises).get ⟨1, by decide⟩).2

/-- A demo tool whose body returns a plain non-JSON string (no registered
Notion body returns a raw string; the wire behaviour is the same for any). -/
def demoStrImpl : ToolImpl :=
  { description := "demo", schema := .dict [],
    function := fun _ => .ok (.str "not json") }

/-- The result dictionary `create_research_page` produces over `demoEnv`. -/
def demoCreateResult : PyValue :=
  .dict [("success", .bool true), ("page_id", .str "p1"),
    ("url", .str "https://notion.so/p1"),
    ("message", .str "Research page created successfully")]

/-- A cached tool entry. -/
def demoEntry : ToolEntry :=
  { name := "select_topic_from_backlog",
    description := "Select a topic from the backlog and promote it to candidate status",
    inputSchema := .dict [("type", .str "object")] }

/-- A connect environment where every step succeeds. -/
def demoConnectEnv : ConnectEnv :=
  { stdioCtx := { cid := 0, closeRaises := false },
    sessionObj := { sid := 0, closeRaises := false },
    stdioEnter := .ok (1, 2), sessionEnter := .ok (), initResult := .ok (),
    listResp := .ok [demoEntry] }

/-- The state of a client straight after a successful `connect()`. -/
def connectedClient : ClientState := (connect freshClient demoConnectEnv).2.1

/-- The request count of a `list_tools` outcome. -/
def requestsIssued : Except String (List ToolEntry × ClientState × Nat) → Nat
| .ok p => p.2.2
| .error _ => 0

/-- The client state after a `list_tools` outcome (unchanged on a raise). -/
def stateAfter (fallback : ClientState) :
    Except String (List ToolEntry × ClientState × Nat) → ClientState
| .ok p => p.2.1
| .error _ => fallback

/-! ## The claims -/

/-- **C1, counterexample.**  The claim says a tool rejected by the active
filter is answered with a not-found failure and its body is never invoked.
On the code, `handle_call_tool` never consults the filter: the tool
`create_research_page` is rejected by the `topic_selector` filter, yet the
call runs its body (call counter 1) and succeeds — no not-found failure. -/
theorem C1_filter_not_enforced_at_call :
    create_context_aware_tool_filter "topic_selector"
      { agentName := "TopicSelector" } { name := "create_research_page" } = false
    ∧ (handle_call_tool (registerTools demoEnv) "create_research_page"
        [("topic_id", .str "t1"), ("research_data", .str "null")]).bodyCalls = 1
    ∧ (handle_call_tool (registerTools demoEnv) "create_research_page"
        [("topic_id", .str "t1"), ("research_data", .str "null")]).outcome
      = .ok [{ type := "text", text := formatResult demoCreateResult }] :=
  ⟨rfl, rfl, rfl⟩

/-- **C1, amended.**  A request naming a tool absent from the registry yields
the not-found failure and no body ever runs; the filter predicate, however,
is not consulted by `handle_call_tool` (it exists only in the client-side SDK
configuration), so only registry absence — not filter rejection — prevents a
body invocation. -/
theorem C1_notfound_no_body_invocation :
    ∀ (tools : List (String × ToolImpl)) (name : String)
      (args : List (String × PyValue)),
    lookupTool tools name = Option.none →
    (handle_call_tool tools name args).bodyCalls = 0
    ∧ (handle_call_tool tools name args).outcome
      = .error ("Tool " ++ sq ++ name ++ sq ++ " not found. Available tools: "
          ++ pyRepr (.list ((tools.map Prod.fst).map PyValue.str))) := by
  intro tools name args h
  simp [handle_call_tool, h]

/-- **C1, witness.**  `web_search` is not in the server registry (search
tools are never registered): calling it runs no body and reports not-found. -/
theorem C1_notfound_witness :
    (handle_call_tool (registerTools demoEnv) "web_search" []).bodyCalls = 0
    ∧ (handle_call_tool (registerTools demoEnv) "web_search" []).outcome
      = .error ("Tool " ++ sq ++ "web_search" ++ sq ++ " not found. Available tools: "
          ++ pyRepr (.list (((registerTools demoEnv).map Prod.fst).map PyValue.str))) :=
  C1_notfound_no_body_invocation (registerTools demoEnv) "web_search" [] rfl

/-- An error-flagged wire response with one text item. -/
def wireError (msg : String) : CallToolWireResult :=
  { isError := true, content := [{ type := "text", text := msg }] }

/-- **C2, counterexample.**  The claim says the failure message carries the
tool name.  On the code, a raising body of `update_topic_status` produces the
wire error `"Tool execution failed: Status update failed: boom"`, which does
not contain the tool name anywhere (the name is added only by the client-side
wrapper when the session call itself raises, which it does not for an
error-flagged result). -/
theorem C2_message_lacks_tool_name :
    serverWireResult (registerTools demoEnvPatchRaises) "update_topic_status"
      [("topic_id", .str "t1"), ("new_status", .str "Research")]
    = wireError "Tool execution failed: Status update failed: boom"
    ∧ strContains "Tool execution failed: Status update failed: boom"
        "update_topic_status" = false :=
  ⟨rfl, by decide⟩

/-- **C2, amended.**  A raising tool body is caught and turned into an
error-flagged wire response whose message carries the underlying error
message behind the fixed prefix (but not the tool name); the server never
crashes — the response function is total — and every subsequent request on
the same connection is served exactly as it would have been on its own. -/
theorem C2_execution_failure_is_isolated :
    ∀ (tools : List (String × ToolImpl)) (name : String) (impl : ToolImpl)
      (args : List (String × PyValue)) (e : String) (reqs : List ToolCallRequest),
    lookupTool tools name = some impl → impl.function args = .error e →
    serverWireResult tools name args = wireError ("Tool execution failed: " ++ e)
    ∧ serverServe tools ({ name := name, arguments := args } :: reqs)
      = wireError ("Tool execution failed: " ++ e) :: serverServe tools reqs := by
  intro tools name impl args e reqs hlook hbody
  constructor
  · simp [serverWireResult, handle_call_tool, hlook, hbody, wireError]
  · simp [serverServe, serverWireResult, handle_call_tool, hlook, hbody, wireError]

/-- **C2, witness.**  The raising `PATCH` behind `update_topic_status`
produces the wrapped error response, and a following `query_topics_by_status`
request on the same connection is still served. -/
theorem C2_execution_failure_witness :
    serverWireResult (registerTools demoEnvPatchRaises) "update_topic_status"
      [("topic_id", .str "t1"), ("new_status", .str "Research")]
    = wireError ("Tool execution failed: " ++ "Status update failed: boom")
    ∧ serverServe (registerTools demoEnvPatchRaises)
        [{ name := "update_topic_status",
           arguments := [("topic_id", .str "t1"), ("new_status", .str "Research")] },
         { name := "query_topics_by_status", arguments := [("status", .str "Backlog")] }]
      = [wireError ("Tool execution failed: " ++ "Status update failed: boom"),
         serverWireResult (registerTools demoEnvPatchRaises) "query_topics_by_status"
           [("status", .str "Backlog")]] :=
  C2_execution_failure_is_isolated (registerTools demoEnvPatchRaises)
    "update_topic_status" demoUpdImpl
    [("topic_id", .str "t1"), ("new_status", .str "Research")]
    "Status update failed: boom"
    [{ name := "query_topics_by_status", arguments := [("status", .str "Backlog")] }]
    rfl rfl

/-- **C3, counterexample.**  The claim says registering an existing name
fails with `DuplicateName` and never silently replaces.  On the code,
registration is `dict.update`: registering `select_topic_from_backlog` again
succeeds and silently replaces the implementation (the looked-up description
changes from `"first"` to `"second"`); no `DuplicateName` failure exists
anywhere in the registration path. -/
theorem C3_duplicate_silently_replaces :
    (lookupTool (dictUpdate [("select_topic_from_backlog",
        { description := "first", schema := .dict [], function := fun _ => .ok .noneV })]
        [("select_topic_from_backlog",
        { description := "second", schema := .dict [], function := fun _ => .ok (.bool true) })])
      "select_topic_from_backlog").map ToolImpl.description = some "second"
    ∧ ("first" : String) ≠ "second" :=
  ⟨rfl, by decide⟩

/-- Looking a key up after `updateEntry` with that key finds exactly the new
implementation (whether the key replaced an old entry or was appended). -/
theorem lookupTool_updateEntry (tools : List (String × ToolImpl)) (name : String)
    (impl : ToolImpl) :
    lookupTool (updateEntry tools (name, impl)) name = some impl := by
  rw [updateEntry]
  split
  · rename_i hany
    induction tools with
    | nil => simp at hany
    | cons e es ih =>
      simp only [List.map_cons]
      by_cases he : e.1 == name
      · rw [if_pos he, lookupTool, if_pos rfl]
      · rw [if_neg he, lookupTool, if_neg (by simpa using he)]
        refine ih ?_
        simpa [he] using hany
  · induction tools with
    | nil => simp [lookupTool]
    | cons e es ih =>
      rename_i hany
      rw [List.cons_append, lookupTool,
        if_neg (by simp at hany; simpa using hany.1)]
      refine ih ?_
      simp at hany ⊢
      exact hany.2

/-- **C3, amended.**  Registration is Python `dict.update`: a duplicate name
silently replaces the existing entry — there is no `DuplicateName` failure —
and for every registered name the lookup after registration returns exactly
the (last-)registered implementation.  `_register_tools` itself registers the
four Notion tools once each, so the running registry is exactly the
`register_notion_tools` catalogue. -/
theorem C3_update_semantics :
    (∀ (tools : List (String × ToolImpl)) (name : String) (impl : ToolImpl),
      lookupTool (dictUpdate tools [(name, impl)]) name = some impl)
    ∧ ∀ env : NotionEnv, registerTools env = register_notion_tools env := by
  constructor
  · intro tools name impl
    exact lookupTool_updateEntry tools name impl
  · intro env
    rfl

/-- **C4, confirmed.**  (a) A body returning a dict is serialized by the
server and decoded by the client's `call_tool` back to an equal dict;
(b) a body returning a string that is not parseable JSON passes through the
server unchanged and the client's fallback silently returns the raw text;
(c) any other result converts to its `str()` representation. -/
theorem C4_wire_roundtrip :
    (∀ (tools : List (String × ToolImpl)) (name : String) (impl : ToolImpl)
        (args : List (String × PyValue)) (entries : List (String × PyValue)),
      lookupTool tools name = some impl →
      impl.function args = .ok (.dict entries) →
      client_call_tool_decode (serverWireResult tools name args)
        = .value (.dict entries))
    ∧ (∀ (tools : List (String × ToolImpl)) (name : String) (impl : ToolImpl)
        (args : List (String × PyValue)) (s : String),
      lookupTool tools name = some impl →
      impl.function args = .ok (.str s) → pyLoads s = Option.none →
      serverWireResult tools name args
        = { isError := false, content := [{ type := "text", text := s }] }
      ∧ client_call_tool_decode (serverWireResult tools name args)
        = .value (.str s))
    ∧ (∀ v : PyValue, (∀ es, v ≠ .dict es) → (∀ s, v ≠ .str s) →
        formatResult v = pyStr v) := by
  refine ⟨?_, ?_, ?_⟩
  · intro tools name impl args entries hlook hbody
    simp [serverWireResult, handle_call_tool, hlook, hbody, formatResult,
      client_call_tool_decode, pyLoads_jsonDumps]
  · intro tools name impl args s hlook hbody hnoparse
    constructor
    · simp [serverWireResult, handle_call_tool, hlook, hbody, formatResult]
    · simp [serverWireResult, handle_call_tool, hlook, hbody, formatResult,
        client_call_tool_decode, hnoparse]
  · intro v hd hs
    cases v with
    | str s => exact absurd rfl (hs s)
    | dict es => exact absurd rfl (hd es)
    | int i => rfl
    | bool b => rfl
    | noneV => rfl
    | list xs => rfl

/-- **C4, witness.**  A successful `update_topic_status` dict result decodes
back to the same dict on the client; a demo string body's non-JSON payload
falls back to the raw text; an integer result formats as `str(5)`. -/
theorem C4_wire_roundtrip_witness :
    client_call_tool_decode (serverWireResult (registerTools demoEnv)
        "update_topic_status" [("topic_id", .str "t1"), ("new_status", .str "Research")])
      = .value (.dict [("success", .bool true), ("topic_id", .str "t1"),
          ("new_status", .str "Research"),
          ("message", .str "Topic status updated to Research")])
    ∧ client_call_tool_decode (serverWireResult [("echo", demoStrImpl)] "echo" [])
      = .value (.str "not json")
    ∧ formatResult (.int 5) = pyStr (.int 5) :=
  ⟨C4_wire_roundtrip.1 (registerTools demoEnv) "update_topic_status"
      ((register_notion_tools demoEnv).get ⟨1, by decide⟩).2
      [("topic_id", .str "t1"), ("new_status", .str "Research")]
      [("success", .bool true), ("topic_id", .str "t1"),
        ("new_status", .str "Research"),
        ("message", .str "Topic status updated to Research")] rfl rfl,
   (C4_wire_roundtrip.2.1 [("echo", demoStrImpl)] "echo" demoStrImpl []
      "not json" rfl rfl rfl).2,
   C4_wire_roundtrip.2.2 (.int 5) (fun es h => nomatch h) (fun s h => nomatch h)⟩

/-- A connected client whose session close raises, with live streams and a
populated cache. -/
def stuckClient : ClientState :=
  { session := some { sid := 7, closeRaises := true },
    stdioContext := some { cid := 7, closeRaises := false },
    readStream := some 1, writeStream := some 2, toolsCache := some [demoEntry] }

/-- **C5, code bug.**  The claim (and the spec's §4.5/§7) requires
`disconnect()` to clear all session state even when the underlying close
raises.  In the code the clearing assignments sit *inside* the `try` after
the close calls, so a raising `session.__aexit__` skips them all: the session
handle, stdio context, streams and tool cache all survive, `is_connected()`
still answers true, and a second `disconnect()` changes nothing either.  (The
no-raise and idempotence parts of the claim do hold; the always-clears part
is what the code breaks.) -/
theorem C5_disconnect_skips_cleanup_on_raise :
    disconnect stuckClient = stuckClient
    ∧ is_connected (disconnect stuckClient) = true
    ∧ disconnect (disconnect stuckClient) = stuckClient
    ∧ (disconnect stuckClient).toolsCache = some [demoEntry] :=
  ⟨rfl, rfl, rfl, rfl⟩

/-- **C6, counterexample.**  The claim says two `list_tools` calls without
`refresh_cache` issue exactly one underlying request.  On the code,
`connect()` itself pre-populates the cache, so on a freshly connected client
the two calls issue zero requests, not one. -/
theorem C6_two_calls_zero_requests :
    is_connected connectedClient = true
    ∧ requestsIssued (list_tools connectedClient false (.ok [demoEntry]))
        + requestsIssued (list_tools
            (stateAfter connectedClient (list_tools connectedClient false (.ok [demoEntry])))
            false (.ok [demoEntry])) = 0
    ∧ ¬(requestsIssued (list_tools connectedClient false (.ok [demoEntry]))
        + requestsIssued (list_tools
            (stateAfter connectedClient (list_tools connectedClient false (.ok [demoEntry])))
            false (.ok [demoEntry])) = 1) :=
  ⟨rfl, rfl, by decide⟩

/-- **C6, amended.**  On a connected client, two `list_tools` calls without
`refresh_cache` issue exactly one underlying request when no cache is present
yet and zero when a cache is present (as it always is straight after
`connect()`, which pre-fetches) — so at most one either way; a call with
`refresh_cache = true` always issues exactly one request. -/
theorem C6_cache_request_counts :
    ∀ (st : ClientState) (r1 r2 : Except String (List ToolEntry)),
    st.session.isSome = true →
    (requestsIssued (list_tools st false r1)
      + requestsIssued (list_tools (stateAfter st (list_tools st false r1)) false r2)
      = if st.toolsCache.isNone then 1 else 0)
    ∧ requestsIssued (list_tools st true r1) = 1 := by
  intro st r1 r2 hs
  obtain ⟨s, hses⟩ := Option.isSome_iff_exists.mp hs
  constructor
  · cases hcache : st.toolsCache with
    | none =>
      cases r1 with
      | ok ts =>
        simp [list_tools, refreshToolsCache, requestsIssued, stateAfter, hses, hcache]
      | error e =>
        simp [list_tools, refreshToolsCache, requestsIssued, stateAfter, hses, hcache]
    | some ts =>
      simp [list_tools, refreshToolsCache, requestsIssued, stateAfter, hses, hcache]
  · cases r1 with
    | ok ts => simp [list_tools, refreshToolsCache, requestsIssued, hses]
    | error e => simp [list_tools, refreshToolsCache, requestsIssued, hses]

/-- **C6, witness.**  On a connected client with no cache yet, the two calls
issue exactly one request; a forced refresh issues one. -/
theorem C6_cache_request_counts_witness :
    (requestsIssued (list_tools { connectedClient with toolsCache := Option.none }
        false (.ok [demoEntry]))
      + requestsIssued (list_tools
          (stateAfter { connectedClient with toolsCache := Option.none }
            (list_tools { connectedClient with toolsCache := Option.none }
              false (.ok [demoEntry]))) false (.ok [demoEntry]))
      = if ({ connectedClient with toolsCache := Option.none } : ClientState).toolsCache.isNone
          then 1 else 0)
    ∧ requestsIssued (list_tools { connectedClient with toolsCache := Option.none }
        true (.ok [demoEntry])) = 1 :=
  C6_cache_request_counts { connectedClient with toolsCache := Option.none }
    (.ok [demoEntry]) (.ok [demoEntry]) rfl

/-- **C7, confirmed.**  The filter denies every tool for any agent type other
than the two known ones (fail closed), and for the known agent types it
allows exactly the fixed name sets of the source. -/
theorem C7_fail_closed_filter :
    (∀ agent_type : String, agent_type ≠ "topic_selector" → agent_type ≠ "researcher" →
      ∀ (ctx : ToolFilterContext) (tool : ToolRef),
        create_context_aware_tool_filter agent_type ctx tool = false)
    ∧ (∀ (ctx : ToolFilterContext) (tool : ToolRef),
        create_context_aware_tool_filter "topic_selector" ctx tool = true
        ↔ tool.name ∈ ["select_topic_from_backlog", "update_topic_status",
            "query_topics_by_status"])
    ∧ (∀ (ctx : ToolFilterContext) (tool : ToolRef),
        create_context_aware_tool_filter "researcher" ctx tool = true
        ↔ tool.name ∈ ["web_search", "search_news", "extract_content",
            "create_research_page", "update_topic_status"]) := by
  refine ⟨?_, ?_, ?_⟩
  · intro agent_type h1 h2 ctx tool
    simp [create_context_aware_tool_filter, h1, h2]
  · intro ctx tool
    simp [create_context_aware_tool_filter]
  · intro ctx tool
    simp [create_context_aware_tool_filter]

/-- **C7, witness.**  An unknown agent type (`"writer"`) is denied even a
registered tool name; the known types see their own sets. -/
theorem C7_fail_closed_witness :
    create_context_aware_tool_filter "writer" { agentName := "Writer" }
      { name := "update_topic_status" } = false
    ∧ (create_context_aware_tool_filter "topic_selector" { agentName := "TopicSelector" }
        { name := "update_topic_status" } = true
       ↔ ("update_topic_status" : String) ∈ ["select_topic_from_backlog",
           "update_topic_status", "query_topics_by_status"]) :=
  ⟨C7_fail_closed_filter.1 "writer" (by decide) (by decide) _ _,
   C7_fail_closed_filter.2.1 { agentName := "TopicSelector" } { name := "update_topic_status" }⟩

/-- The 30-second `POST` call site of the legacy function tool. -/
def legacyPostCall : OutboundCall :=
  { site := "tools/notion_db.py: select_topic_from_backlog requests.post", timeoutSeconds := 30 }

/-- The 4-second `POST` call site of `query_topics_by_status`. -/
def queryPostCall : OutboundCall :=
  { site := "mcp_server/tools/notion_tools.py: query_topics_by_status requests.post", timeoutSeconds := 4 }

/-- **C8, counterexample.**  The claim covers every outbound call of every
registered tool body, but the legacy function tool in `tools/notion_db.py`
(still registered as a tool in `agents/topic_selector/agent.py`) passes
`timeout=30` — six times the five-second budget, not materially shorter. -/
theorem C8_legacy_timeout_exceeds_budget :
    ∃ c ∈ allRegisteredToolOutboundCalls,
      c.timeoutSeconds = 30 ∧ ¬(c.timeoutSeconds < 5) := by
  refine ⟨legacyPostCall, ?_, rfl, by decide⟩
  rw [allRegisteredToolOutboundCalls]
  exact List.mem_append_right _ (List.mem_cons_self _ _)

/-- **C8, amended.**  Every outbound call made from a tool body of the MCP
server's tool modules passes the explicit 4-second timeout, materially
shorter than the 5-second budget; the two calls of the legacy agents-SDK
function tool in `tools/notion_db.py` pass 30 seconds instead. -/
theorem C8_mcp_timeouts_within_budget :
    (∀ c ∈ mcpServerToolOutboundCalls, c.timeoutSeconds = 4 ∧ c.timeoutSeconds < 5)
    ∧ ∀ c ∈ legacyFunctionToolOutboundCalls, c.timeoutSeconds = 30 := by
  constructor
  · intro c hc
    fin_cases hc <;> exact ⟨rfl, by decide⟩
  · intro c hc
    fin_cases hc <;> rfl

/-- **C8, witness.**  The `query_topics_by_status` call site is in the list
and bounded by 4 seconds. -/
theorem C8_mcp_timeouts_witness :
    queryPostCall.timeoutSeconds = 4 ∧ queryPostCall.timeoutSeconds < 5 :=
  C8_mcp_timeouts_within_budget.1 _ (by
    rw [mcpServerToolOutboundCalls]
    exact List.mem_cons_of_mem _ (List.mem_cons_of_mem _ (List.mem_cons_self _ _)))

/-- **C9, confirmed (implicit).**  When the cache refresh inside
`list_tools` fails, the call does not raise: it returns the empty list with
the cache set to `[]`; every later call without `refresh_cache` returns `[]`
without issuing a request; and the failing call is indistinguishable from a
server that reported zero tools. -/
theorem C9_refresh_failure_looks_like_no_tools :
    ∀ (st : ClientState) (refresh : Bool) (e : String),
    st.session.isSome = true →
    (st.toolsCache.isNone = true ∨ refresh = true) →
    list_tools st refresh (.error e)
      = .ok ([], { st with toolsCache := some [] }, 1)
    ∧ (∀ r2, list_tools { st with toolsCache := some [] } false r2
        = .ok ([], { st with toolsCache := some [] }, 0))
    ∧ list_tools st refresh (.error e) = list_tools st refresh (.ok []) := by
  intro st refresh e hs htrig
  obtain ⟨s, hses⟩ := Option.isSome_iff_exists.mp hs
  have hcond : (st.toolsCache.isNone || refresh) = true := by
    rcases htrig with h | h <;> simp [h]
  refine ⟨?_, ?_, ?_⟩
  · simp [list_tools, refreshToolsCache, hses, hcond]
  · intro r2
    simp [list_tools, refreshToolsCache, hses]
  · simp [list_tools, refreshToolsCache, hses, hcond]

/-- **C9, witness.**  A forced refresh whose request raises returns `[]`,
caches `[]`, and later calls return `[]` with no request. -/
theorem C9_refresh_failure_witness :
    list_tools connectedClient true (.error "network down")
      = .ok ([], { connectedClient with toolsCache := some [] }, 1)
    ∧ (∀ r2, list_tools { connectedClient with toolsCache := some [] } false r2
        = .ok ([], { connectedClient with toolsCache := some [] }, 0))
    ∧ list_tools connectedClient true (.error "network down")
      = list_tools connectedClient true (.ok []) :=
  C9_refresh_failure_looks_like_no_tools connectedClient true "network down"
    rfl (Or.inr rfl)

/-- **C10, confirmed (implicit).**  `connect()` on an already-connected
client returns at once with no error, spawns no server process, and leaves
the state — session, streams, cache — exactly as it was. -/
theorem C10_connect_noop_when_connected :
    ∀ (st : ClientState) (env : ConnectEnv),
    st.session.isSome = true → connect st env = (.ok (), st, 0) := by
  intro st env hs
  simp [connect, hs]

/-- **C10, witness.**  A second `connect()` on the freshly connected client
changes nothing and spawns nothing. -/
theorem C10_connect_noop_witness :
    connect connectedClient demoConnectEnv = (.ok (), connectedClient, 0) :=
  C10_connect_noop_when_connected connectedClient demoConnectEnv rfl

end EffectiveGiggle
